import Mathlib

/-!
Shallow embedding of the conversational decision engine (snapshot builder,
selector, procedures, confirmation gate, automation hook, orchestrator)
of the `mb_v2` repository, together with theorems settling the frozen
claims about it.

Python dictionaries are modelled as association lists (`List (String × α)`)
with Python-dict semantics: lookup finds the first binding, assignment
replaces an existing binding in place or appends a new one at the end.
Heterogeneous (`Any`-typed) dictionary values are modelled by the `Val`
type; Python truthiness is `Val.truthy`.  Machine floats that only carry
priorities/confidences (compared, never summed with rounding) are
modelled as `Rat`.  Wall-clock instants (`time.time()`) are `Nat` epoch
seconds.
-/

namespace MB

/-- A Python `Any` value as it occurs in the modelled dictionaries. -/
inductive Val where
  | s (v : String)
  | b (v : Bool)
  | n (v : Int)
  | nil
deriving DecidableEq, Repr

/-- Python truthiness of a `Val` (`bool(v)`). -/
def Val.truthy : Val → Bool
  | .s v => v ≠ ""
  | .b v => v
  | .n v => v ≠ 0
  | .nil => false

/-- Truthiness of a Python optional integer (`if lead_id:`): `None` and `0` are falsy. -/
def natTruthy : Option Nat → Bool
  | some v => v ≠ 0
  | none => false

/-- Truthiness of a Python optional string: `None` and `""` are falsy. -/
def strTruthy : Option String → Bool
  | some v => v ≠ ""
  | none => false

/-- Dictionary lookup, `d.get(k)` (first binding wins, as keys are unique in a dict). -/
def dlookup (k : String) : List (String × α) → Option α
  | [] => none
  | (k1, v) :: t => if k1 = k then some v else dlookup k t

/-- Dictionary lookup with default, `d.get(k, dflt)`. -/
def dget (l : List (String × α)) (k : String) (dflt : α) : α :=
  (dlookup k l).getD dflt

/-- Membership test, `k in d`. -/
def dmem (k : String) (l : List (String × α)) : Bool :=
  (dlookup k l).isSome

/-- Dictionary assignment `d[k] = v`: replace an existing binding in place,
otherwise append at the end (CPython insertion-order semantics). -/
def dset : List (String × α) → String → α → List (String × α)
  | [], k, v => [(k, v)]
  | (k1, v1) :: t, k, v => if k1 = k then (k, v) :: t else (k1, v1) :: dset t k v

/-- Dictionary deletion `del d[k]`. -/
def ddel (l : List (String × α)) (k : String) : List (String × α) :=
  l.filter (fun p => p.1 ≠ k)

/-- `s.lower()` (ASCII case folding, as the rules and messages involved are
already lower-case except for ASCII letters). -/
def strLower (s : String) : String :=
  String.mk (s.toList.map Char.toLower)

/-- Contiguous-sublist test on character lists. -/
def infixOf (p : List Char) : List Char → Bool
  | [] => p.isEmpty
  | c :: t => p.isPrefixOf (c :: t) || infixOf p t

/-- `pat in s` for Python strings: substring containment. -/
def substr (pat s : String) : Bool :=
  infixOf pat.toList s.toList

/-- Split a character list into whitespace-separated words. -/
def wordsAux : List Char → List Char → List String
  | acc, [] => if acc.isEmpty then [] else [String.mk acc.reverse]
  | acc, c :: t =>
    if c.isWhitespace then
      if acc.isEmpty then wordsAux [] t
      else String.mk acc.reverse :: wordsAux [] t
    else wordsAux (c :: acc) t

/-- `s.split()`: split on whitespace runs, dropping empty words. -/
def pyWords (s : String) : List String :=
  wordsAux [] s.toList

/-- `s.strip()`: drop leading and trailing whitespace. -/
def pyStrip (s : String) : String :=
  String.mk ((((s.toList.dropWhile Char.isWhitespace).reverse).dropWhile
    Char.isWhitespace).reverse)

/-- `message.lower().strip()`. -/
def normShort (s : String) : String :=
  pyStrip (strLower s)

/-- `list.index(x)` as an option: the first index of `x`, `None` instead of `ValueError`. -/
def idxOf (x : String) : List String → Option Nat
  | [] => none
  | h :: t => if h = x then some 0 else (idxOf x t).map (· + 1)

/-! ## Snapshot (app/data/schemas.py) and the non-regressive merge
(app/core/snapshot_builder.py, `merge_nao_regressivo` and
`_evidencia_melhor_ou_igual`). -/

/-- `Snapshot` from app/data/schemas.py; `accounts` is `Dict[str, str]`,
the remaining dictionaries are `Any`-valued.  `kb_context` and
`llm_signals` are opaque for the merge and kept as `Val`s. -/
structure Snapshot where
  accounts : List (String × String) := []
  deposit : List (String × Val) := []
  agreements : List (String × Val) := []
  flags : List (String × Val) := []
  history_summary : String := ""
  kb_context : Option Val := none
  llm_signals : List (String × Val) := []
deriving DecidableEq, Repr

/-- Position of a value in a hierarchy list of strings
(`hierarquia.index(valor)`; non-strings and absent strings raise
`ValueError` in Python, i.e. `none` here). -/
def hierIndex (hier : List String) : Val → Option Nat
  | .s v => idxOf v hier
  | _ => none

/-- `_evidencia_melhor_ou_igual`: the new value is better-or-equal when both
values index into the hierarchy (best first) and the new index is not larger;
any `ValueError` yields `False`. -/
def evidencia_melhor_ou_igual (novo atual : Val) (hierarquia : List String) : Bool :=
  match hierIndex hierarquia novo, hierIndex hierarquia atual with
  | some posNovo, some posAtual => posNovo ≤ posAtual
  | _, _ => false

/-- Account-status hierarchy, strongest first (`HIERARQUIA_ACCOUNTS`). -/
def HIERARQUIA_ACCOUNTS : List String := ["com_conta", "verificado", "candidato", "desconhecido"]

/-- Deposit-status hierarchy, strongest first (`HIERARQUIA_DEPOSIT`). -/
def HIERARQUIA_DEPOSIT : List String := ["confirmado", "pendente", "nenhum"]

/-- `merge_nao_regressivo`: merge extracted candidates into an existing
snapshot without downgrading hierarchical facts.  The source first rebuilds
the snapshot as `Snapshot(accounts=..., deposit=..., agreements=...,
flags=..., history_summary=..., kb_context=...)` — `llm_signals` is not
passed, so it falls back to its pydantic default, the empty dict: the merge
resets `llm_signals`. -/
def merge_nao_regressivo (snapshot_existente : Snapshot) (candidates : List (String × Val)) :
    Snapshot :=
  let accounts1 :=
    if dmem "nyrion_id" candidates then
      let valor_atual := dget snapshot_existente.accounts "nyrion" "desconhecido"
      if evidencia_melhor_ou_igual (.s "candidato") (.s valor_atual) HIERARQUIA_ACCOUNTS then
        dset snapshot_existente.accounts "nyrion" "candidato"
      else snapshot_existente.accounts
    else snapshot_existente.accounts
  let accounts2 :=
    if dmem "quotex_id" candidates then
      let valor_atual := dget accounts1 "quotex" "desconhecido"
      if evidencia_melhor_ou_igual (.s "candidato") (.s valor_atual) HIERARQUIA_ACCOUNTS then
        dset accounts1 "quotex" "candidato"
      else accounts1
    else accounts1
  let agreements1 :=
    if dlookup "intent" candidates = some (.s "teste") then
      dset snapshot_existente.agreements "wants_test" (.b true)
    else snapshot_existente.agreements
  let deposit1 :=
    match dlookup "deposit_evidence" candidates with
    | some novo_valor =>
      let valor_atual := dget snapshot_existente.deposit "status" (.s "nenhum")
      if evidencia_melhor_ou_igual novo_valor valor_atual HIERARQUIA_DEPOSIT then
        dset snapshot_existente.deposit "status" novo_valor
      else snapshot_existente.deposit
    | none => snapshot_existente.deposit
  { accounts := accounts2,
    deposit := deposit1,
    agreements := agreements1,
    flags := snapshot_existente.flags,
    history_summary := snapshot_existente.history_summary,
    kb_context := snapshot_existente.kb_context,
    llm_signals := [] }

/-- Rank of a value on a tiered fact: its position counted from the weak end
of the hierarchy, so that a larger rank is a stronger evidence value
(the spec's `rank`). -/
def rankIn (hier : List String) (v : Val) : Option Nat :=
  hierIndex hier.reverse v

/-! ## Selector (app/core/selector.py) -/

/-- The `output` dictionary of a catalog automation; `buttons` and `track`
payloads are opaque values. -/
structure OutputCfg where
  typ : Option String := none
  text : Option String := none
  buttons : Option Val := none
  track : Option Val := none
deriving DecidableEq, Repr

/-- The `expects_reply` dictionary of a catalog automation. -/
structure ExpectsReply where
  target : Option String := none
deriving DecidableEq, Repr

/-- A parsed catalog automation (one YAML record of `catalog.yml`), with the
dictionary defaults used at its access sites (`automation.get("topic", "")`,
`automation.get("priority", 0.0)`, ...). -/
structure Automation where
  id : Option String := none
  topic : String := ""
  use_when : String := ""
  eligibility : String := ""
  priority : Rat := 0
  output : OutputCfg := {}
  expects_reply : Option ExpectsReply := none
deriving DecidableEq, Repr

/-- `Action` from app/data/schemas.py (and the action dictionaries built by
the selector and procedures, which are turned into `Action` by the callers). -/
structure Action where
  type : String
  text : Option String := none
  set_facts : Option (List (String × Val)) := none
  automation_id : Option String := none
  buttons : Option Val := none
  track : Option Val := none
deriving DecidableEq, Repr

/-- `evaluate_eligibility_rule`: heuristic PT-BR rule evaluation against the
snapshot; shared by the Selector and by Procedures.  Each block of the Python
function either returns `False` or falls through, which is rendered as a
chain of falsifying conditions. -/
def evaluate_eligibility_rule (rule : String) (snapshot : Snapshot) : Bool :=
  if rule = "" then true
  else
    let rule_lower := strLower rule
    let can_deposit := (dget snapshot.agreements "can_deposit" (.b false)).truthy
    let deposit_status := dget snapshot.deposit "status" (.s "nenhum")
    let has_account := (snapshot.accounts.map Prod.snd).any
      (fun status => !(status == "desconhecido" || status == "unknown"))
    let explained := (dget snapshot.flags "explained" (.b false)).truthy
    if substr "não concordou em depositar" rule_lower && can_deposit then false
    else if substr "concordou em depositar" rule_lower &&
        !substr "não concordou" rule_lower && !can_deposit then false
    else if substr "não depositou" rule_lower &&
        [Val.s "confirmado", Val.s "pendente"].contains deposit_status then false
    else if substr "já depositou" rule_lower &&
        !([Val.s "confirmado", Val.s "pendente"].contains deposit_status) then false
    else if substr "depósito confirmado" rule_lower &&
        !(deposit_status == .s "confirmado") then false
    else if substr "tem conta" rule_lower && !substr "não tem conta" rule_lower &&
        !has_account then false
    else if substr "não tem conta" rule_lower && has_account then false
    else if substr "explicado" rule_lower && substr "não foi explicado" rule_lower &&
        explained then false
    else if substr "explicado" rule_lower && substr "foi explicado" rule_lower &&
        !explained then false
    else true

/-- `is_automation_eligible`: topic/keyword gate followed by the rule
evaluation. -/
def is_automation_eligible (automation : Automation) (snapshot : Snapshot)
    (text : String) : Bool :=
  let use_when := strLower automation.use_when
  if automation.topic ≠ "" && !substr (strLower automation.topic) text &&
      !((pyWords use_when).any (fun word => substr word text)) then
    false
  else
    evaluate_eligibility_rule automation.eligibility snapshot

/-- Keep a payload only when it is present and truthy
(`if buttons: action["buttons"] = buttons`). -/
def keepTruthy : Option Val → Option Val
  | some v => if v.truthy then some v else none
  | none => none

/-- `convert_automation_to_action`: turn the winning automation's output into
an action dictionary carrying the automation id. -/
def convert_automation_to_action (automation : Automation) : Action :=
  { type := automation.output.typ.getD "message",
    text := some (automation.output.text.getD ""),
    automation_id := automation.id,
    buttons := keepTruthy automation.output.buttons,
    track := keepTruthy automation.output.track }

/-- The comparison passed to the sort in `select_automation`
(`sort(key=priority, reverse=True)` is a stable descending sort). -/
def prioGe (a b : Automation) : Bool :=
  b.priority ≤ a.priority

/-- The `eligible_automations` list accumulated by `select_automation`:
catalog entries eligible for the snapshot and the lowered text of the last
message of the window. -/
def eligibleFor (catalog : List Automation) (snapshot : Snapshot)
    (messages : List String) : List Automation :=
  catalog.filter (fun a =>
    is_automation_eligible a snapshot (strLower ((messages.getLast?).getD "")))

/-- `select_automation`: filter the catalog by eligibility, sort by priority
descending (stable), and convert the head into an action. -/
def select_automation (catalog : List Automation) (snapshot : Snapshot)
    (messages : List String) : Option Action :=
  if catalog.isEmpty then none
  else
    match ((eligibleFor catalog snapshot messages).mergeSort prioGe).head? with
    | none => none
    | some selected => some (convert_automation_to_action selected)

/-! ## Procedures (app/core/procedures.py) -/

/-- An automation reference inside a procedure step
(`{"automation": <id>}`). -/
structure AutomationSpec where
  automation : Option String := none
deriving DecidableEq, Repr

/-- A procedure step.  `doSpec` models the step's `do` key (the terminal
action of the last step). -/
structure Step where
  name : Option String := none
  condition : String := ""
  if_missing : Option AutomationSpec := none
  doSpec : Option AutomationSpec := none
deriving DecidableEq, Repr

/-- A parsed procedure record of `procedures.yml`. -/
structure Procedure where
  id : Option String := none
  title : String := ""
  steps : List Step := []
deriving DecidableEq, Repr

/-- The plan dictionary returned by `run_procedure`. -/
structure ProcPlan where
  decision_id : String
  actions : List Action
deriving DecidableEq, Repr

/-- `is_step_satisfied`: an empty condition is always satisfied, otherwise
the shared rule evaluator decides. -/
def is_step_satisfied (condition : String) (snapshot : Snapshot) : Bool :=
  if condition = "" then true
  else evaluate_eligibility_rule condition snapshot

/-- `find_automation_by_id`: first catalog entry with the given id. -/
def find_automation_by_id (catalog : List Automation) (automation_id : String) :
    Option Automation :=
  catalog.find? (fun a => a.id == some automation_id)

/-- `execute_automation`: resolve an automation reference against the
catalog, falling back to a placeholder message when the id is unknown; a
reference without a (truthy) id yields no action. -/
def execute_automation (catalog : List Automation) (automation_spec : AutomationSpec) :
    Option Action :=
  match automation_spec.automation with
  | none => none
  | some automation_id =>
    if automation_id = "" then none
    else
      match find_automation_by_id catalog automation_id with
      | some automation => some (convert_automation_to_action automation)
      | none => some { type := "send_message",
                       text := some ("Ação do passo: " ++ automation_id) }

/-- `execute_step_action`: the corrective action of an unsatisfied step. -/
def execute_step_action (catalog : List Automation) (step : Step) : Option Action :=
  match step.if_missing with
  | none => none
  | some spec => execute_automation catalog spec

/-- `find_procedure`: first procedure with the given id. -/
def find_procedure (procedures : List Procedure) (proc_id : String) : Option Procedure :=
  procedures.find? (fun p => p.id == some proc_id)

/-- `run_procedure`: evaluate the steps in declared order; on the first
unsatisfied step take its corrective action and stop; when no action was
produced and the procedure has steps, run the final step's `do` action or
emit the generic completion message. -/
def run_procedure (catalog : List Automation) (procedures : List Procedure)
    (proc_id : String) (snapshot : Snapshot) : ProcPlan :=
  match find_procedure procedures proc_id with
  | none => { decision_id := "proc_error", actions := [] }
  | some proc =>
    let actions1 :=
      match proc.steps.find? (fun step => !is_step_satisfied step.condition snapshot) with
      | some step => (execute_step_action catalog step).toList
      | none => []
    let actions2 :=
      if actions1.isEmpty && !proc.steps.isEmpty then
        match proc.steps.getLast? with
        | some final_step =>
          match final_step.doSpec with
          | some final_action => (execute_automation catalog final_action).toList
          | none => [{ type := "send_message",
                       text := some "Procedimento concluído com sucesso! ✅" }]
        | none => []
      else actions1
    { decision_id := "proc_" ++ proc_id ++ "_" ++ toString actions2.length,
      actions := actions2 }

/-! ## Lead context (app/core/contexto_lead.py) and confirmation gate
(app/core/confirmation_gate.py) -/

/-- The `aguardando` dictionary armed by the Automation Hook, with the
dictionary defaults used at the gate's access sites (`aguardando.get("ttl", 0)`,
`aguardando.get("prompt_text", "")`, ...).  `targetv` models the `target`
key (absent in legacy entries that carry `fato` instead). -/
structure Aguardando where
  tipo : String := ""
  targetv : Option String := none
  automation_id : Option String := none
  lead_idv : Option Nat := none
  provider_message_id : Option String := none
  prompt_text : String := ""
  ttl : Nat := 0
  created_at : Nat := 0
deriving DecidableEq, Repr

/-- One entry of the bounded `timeline_expects_reply` JSON column
(`{target, automation_id, provider_message_id, prompt_text, created_at}`). -/
structure TimelineEntry where
  target : String := ""
  automation_id : Option String := none
  provider_message_id : Option String := none
  prompt_text : String := ""
  created_at : Nat := 0
deriving DecidableEq, Repr

/-- The persisted `ContextoLead` row as used by the gate and the hook. -/
structure CtxStore where
  aguardando : Option Aguardando := none
  ultima_automacao_enviada : Option String := none
  timeline : List TimelineEntry := []
deriving DecidableEq, Repr

/-- `_aguardando_expirou`: the armed state is expired when `now > ttl`. -/
def aguardando_expirou (now : Nat) (ag : Aguardando) : Bool :=
  ag.ttl < now

/-- `obter_contexto`: the stored context with an expired `aguardando`
cleared lazily on read. -/
def obter_contexto (now : Nat) (store : Option CtxStore) : Option CtxStore :=
  match store with
  | none => none
  | some ctx =>
    match ctx.aguardando with
    | some ag =>
      if aguardando_expirou now ag then some { ctx with aguardando := none }
      else some ctx
    | none => some ctx

/-- The `on_yes`/`on_no` outcome of a confirmation target
(`{facts, automation?}`). -/
structure Outcome where
  facts : List (String × Val) := []
  automation : Option String := none
deriving DecidableEq, Repr

/-- One parsed record of `confirm_targets.yml`. -/
structure TargetConfig where
  on_yes : Option Outcome := none
  on_no : Option Outcome := none
  max_age_minutes : Option Nat := none
deriving DecidableEq, Repr

/-- `_is_target_valid`: accept a target from the whitelist, which is the key
set of the parsed `confirm_targets.yml` when that parsed store is non-empty
and the hard-coded default pair otherwise.  (The Python code fills the
whitelist lazily from the same cache; this is its state for a given parsed
store.) -/
def is_target_valid (targets : List (String × TargetConfig)) (target : String) : Bool :=
  if targets.isEmpty then
    target == "confirm_can_deposit" || target == "confirm_created_account"
  else
    dmem target targets

/-- `ConfirmationResult` with its constructor defaults.  The source's float
confidences are exact hundredths (0.95, 0.85, ...); they are modelled as
`Nat` hundredths, which preserves every comparison the code performs. -/
structure ConfirmationResult where
  handled : Bool := false
  actions : List Action := []
  target : Option String := none
  polarity : Option String := none
  confidence : Nat := 0
  source : String := "none"
  reason : String := ""
deriving DecidableEq, Repr

/-- One pending confirmation assembled by `_get_pending_confirmations`. -/
structure Pending where
  target : String
  source : String
  timestampv : Nat := 0
  automation_id : Option String := none
  prompt_text : String := ""
  provider_message_id : Option String := none
deriving DecidableEq, Repr

/-- Modelled from the spec: `get_retroactive_expects_reply` is imported from
`app.tools.apply_plan`, but that module in the source tree does not define
it.  Per spec §4.2 and §4.3 it searches the lead's bounded expects-reply
timeline for an event within the retroactive window (in minutes); the most
recent such entry (the timeline is appended in arrival order) is returned. -/
def get_retroactive_expects_reply (now : Nat) (window_minutes : Nat)
    (timeline : List TimelineEntry) : Option TimelineEntry :=
  (timeline.filter (fun e => now ≤ e.created_at + window_minutes * 60)).getLast?

/-- `_get_pending_confirmations`: a valid unexpired `waiting` entry of kind
`confirmacao`, else a retroactive timeline entry with a still-valid target. -/
def get_pending_confirmations (targets : List (String × TargetConfig))
    (now window_minutes : Nat) (contexto : Option CtxStore)
    (timeline : List TimelineEntry) : List Pending :=
  let pending : List Pending :=
    match contexto with
    | some ctx =>
      match ctx.aguardando with
      | some ag =>
        if ag.tipo = "confirmacao" then
          match ag.targetv with
          | some target =>
            if target ≠ "" ∧ is_target_valid targets target = true then
              if now ≤ ag.ttl then
                [{ target := target, source := "context", timestampv := ag.created_at,
                   automation_id := ag.automation_id, prompt_text := ag.prompt_text,
                   provider_message_id := ag.provider_message_id }]
              else []
            else []
          | none => []
        else []
      | none => []
    | none => []
  if pending.isEmpty then
    match get_retroactive_expects_reply now window_minutes timeline with
    | some entry =>
      if entry.target ≠ "" ∧ is_target_valid targets entry.target = true then
        [{ target := entry.target, source := "retroactive",
           timestampv := entry.created_at, automation_id := entry.automation_id,
           prompt_text := entry.prompt_text,
           provider_message_id := entry.provider_message_id }]
      else []
    | none => []
  else pending

/-- `_is_short_response`: curated yes/no tokens, or at most three words. -/
def is_short_response (message : String) : Bool :=
  if message = "" then false
  else
    let message_lower := normShort message
    let yes_short := ["sim", "s", "yes", "y", "ok", "👍", "✅", "claro", "pode ser", "beleza"]
    let no_short := ["não", "nao", "n", "no", "nope", "agora não", "depois",
                     "mais tarde", "não consigo"]
    if yes_short.contains message_lower || no_short.contains message_lower then true
    else if (pyWords message_lower).length ≤ 3 then true
    else false

/-- `_deterministic_short_response`: exact-match classification of short
replies into yes/no/other with fixed confidences. -/
def deterministic_short_response (message : String) (pending : List Pending) :
    Option ConfirmationResult :=
  match pending with
  | [] => none
  | p :: _ =>
    let message_lower := normShort message
    let yes_responses := ["sim", "s", "yes", "y", "ok", "👍", "✅", "claro", "pode ser", "beleza"]
    let no_responses := ["não", "nao", "n", "no", "nope", "agora não", "impossível",
                         "não dá", "não da", "negativo"]
    let other_responses := ["depois", "talvez", "mais tarde", "agora não", "vou ver",
                            "deixa eu pensar"]
    if yes_responses.contains message_lower then
      some { handled := true, target := some p.target, polarity := some "yes",
             confidence := 95, source := "deterministic_short",
             reason := "short_yes_response" }
    else if no_responses.contains message_lower then
      some { handled := true, target := some p.target, polarity := some "no",
             confidence := 95, source := "deterministic_short",
             reason := "short_no_response" }
    else if other_responses.contains message_lower then
      some { handled := true, target := some p.target, polarity := some "other",
             confidence := 90, source := "deterministic_short",
             reason := "short_other_response" }
    else none

/-- `_try_deterministic_confirmation`: substring match against curated yes/no
phrase lists with the lower 0.70 confidence bar. -/
def try_deterministic_confirmation (message : String) (pending : List Pending) :
    ConfirmationResult :=
  match pending with
  | [] => { reason := "no_pending" }
  | p :: _ =>
    let msg_lower := normShort message
    let yes_patterns := ["sim", "consigo", "posso", "quero", "aceito", "pode", "vamos",
                         "claro", "certeza", "ok", "beleza", "perfeito", "vou"]
    let no_patterns := ["não", "nao", "não consigo", "não posso", "não quero",
                        "impossível", "não dá", "não da", "negativo"]
    match yes_patterns.find? (fun pat => substr pat msg_lower) with
    | some pat =>
      let confidence : Nat := if pat ∈ (["sim", "consigo", "posso"] : List String)
        then 85 else 75
      if confidence ≥ 70 then
        { handled := true, target := some p.target, polarity := some "yes",
          confidence := confidence, source := "fallback",
          reason := "deterministic_match: yes" }
      else { reason := "deterministic_no_match", source := "fallback" }
    | none =>
      match no_patterns.find? (fun pat => substr pat msg_lower) with
      | some pat =>
        let confidence : Nat := if pat ∈ (["não", "nao"] : List String)
          then 85 else 75
        if confidence ≥ 70 then
          { handled := true, target := some p.target, polarity := some "no",
            confidence := confidence, source := "fallback",
            reason := "deterministic_match: no" }
        else { reason := "deterministic_no_match", source := "fallback" }
      | none => { reason := "deterministic_no_match", source := "fallback" }

/-- `_create_confirmation_actions`: synthesize `[set_facts?, send_message?,
clear_waiting]` from the resolved polarity and the target's configuration;
no action is produced when the result is unhandled, the target or lead id is
missing, or the target's configuration is not found. -/
def create_confirmation_actions (targets : List (String × TargetConfig))
    (result : ConfirmationResult) (lead_id : Option Nat) : List Action :=
  if ¬ result.handled ∨ ¬ strTruthy result.target ∨ ¬ natTruthy lead_id then []
  else
    match result.target with
    | none => []
    | some target =>
      match dlookup target targets with
      | none => []
      | some target_config =>
        let branch : List Action :=
          if result.polarity = some "yes" then
            match target_config.on_yes with
            | some oc =>
              (if oc.facts ≠ [] then
                [{ type := "set_facts", set_facts := some oc.facts }]
              else []) ++
              [{ type := "send_message",
                 text := some "✅ Perfeito! Entendi que você consegue fazer o depósito. Vou liberar seu acesso ao teste!" }]
            | none => []
          else if result.polarity = some "no" then
            match target_config.on_no with
            | some oc =>
              (if oc.facts ≠ [] then
                [{ type := "set_facts", set_facts := some oc.facts }]
              else []) ++
              (match oc.automation with
               | some automation =>
                 [{ type := "send_message",
                    text := some ("Automação de ajuda disparada: " ++ automation) }]
               | none =>
                 [{ type := "send_message",
                    text := some "Entendi que você não consegue fazer o depósito agora. Posso te ajudar com outras opções!" }])
            | none => []
          else []
        branch ++ [{ type := "clear_waiting", text := some "Estado de aguardando limpo" }]

/-- The gate's in-process state: the per-lead lock map and the idempotency
cache, both keyed by strings and holding epoch-second timestamps. -/
structure GateState where
  locks : List (String × Nat) := []
  idem : List (String × Nat) := []
deriving DecidableEq, Repr

/-- The settings consulted by `process_message`, with their defaults from
app/settings.py; `has_openai_client` models `self.openai_client` being
configured. -/
structure GateSettings where
  gate_yesno_deterministico : Bool := false
  confirm_agent_mode : String := "llm_first"
  confirm_agent_threshold : Nat := 80
  gate_retroactive_window_min : Nat := 10
  has_openai_client : Bool := false
deriving DecidableEq, Repr

/-- The slice of `Env` read by the gate: the lead id and the texts of the
message window. -/
structure GateEnv where
  lead_id : Option Nat := none
  messages : List String := []
deriving DecidableEq, Repr

/-- Python string interpolation of an optional integer (`f"..{lead_id}.."`). -/
def fmt_lead_id : Option Nat → String
  | some n => toString n
  | none => "None"

/-- The per-lead lock key. -/
def lock_key (lead_id : Option Nat) : String :=
  "confirmation_lock_" ++ fmt_lead_id lead_id

/-- `_acquire_lead_lock`: fail while a lock entry is younger than 30
seconds, otherwise write the current time. -/
def acquire_lead_lock (now : Nat) (lead_id : Option Nat) (gs : GateState) :
    Bool × GateState :=
  let key := lock_key lead_id
  if now - dget gs.locks key 0 < 30 then (false, gs)
  else (true, { gs with locks := dset gs.locks key now })

/-- `_release_lead_lock`: drop the lock entry if present. -/
def release_lead_lock (lead_id : Option Nat) (gs : GateState) : GateState :=
  { gs with locks := ddel gs.locks (lock_key lead_id) }

/-- `_build_idempotency_key`: the md5 input string
`confirmation_{lead_id}_{normalized message}`; the hash itself is modelled
by the hashed text, which is injective exactly where md5 is collision-free. -/
def build_idempotency_key (lead_id : Option Nat) (message : String) : String :=
  "confirmation_" ++ fmt_lead_id lead_id ++ "_" ++ normShort message

/-- `_check_idempotency`: a hit while the entry is younger than 10 minutes;
a stale entry is deleted. -/
def check_idempotency (now : Nat) (key : String) (gs : GateState) :
    Bool × GateState :=
  match dlookup key gs.idem with
  | some ts =>
    if now - ts < 600 then (true, gs)
    else (false, { gs with idem := ddel gs.idem key })
  | none => (false, gs)

/-- `_store_idempotency`: record the key at the current time; past 100
entries keep only the 100 most recent by timestamp (stable ascending sort,
keep the tail). -/
def store_idempotency (now : Nat) (key : String) (gs : GateState) : GateState :=
  let idem1 := dset gs.idem key now
  if idem1.length > 100 then
    { gs with idem :=
        List.drop (idem1.length - 100) (idem1.mergeSort (fun a b => decide (a.2 ≤ b.2))) }
  else { gs with idem := idem1 }

/-- The deterministic-fallback tail of `process_message`: reached when the
LLM layer is disabled, did not match, or raised. -/
def gate_fallback (S : GateSettings) (targets : List (String × TargetConfig))
    (now : Nat) (env : GateEnv) (idempotency_key current_message : String)
    (pending : List Pending) (gs : GateState) :
    ConfirmationResult × GateState :=
  if S.confirm_agent_mode = "llm_first" ∨ S.confirm_agent_mode = "hybrid" ∨
      S.confirm_agent_mode = "det_only" then
    let fallback_result := try_deterministic_confirmation current_message pending
    if fallback_result.handled then
      ({ fallback_result with
          actions := create_confirmation_actions targets fallback_result env.lead_id },
        store_idempotency now idempotency_key gs)
    else ({ reason := "no_match" }, gs)
  else ({ reason := "no_match" }, gs)

/-- Resolution layers of `process_message` (steps after the pending and
empty-message guards): deterministic short-circuit, LLM classification
(whose outcome, never an exception, is the `llm_result` oracle; an exception
or no-match falls through to `gate_fallback`), and the deterministic
fallback. -/
def gate_resolution (S : GateSettings) (targets : List (String × TargetConfig))
    (now : Nat) (env : GateEnv) (idempotency_key current_message : String)
    (pending : List Pending) (llm_result : ConfirmationResult) (gs : GateState) :
    ConfirmationResult × GateState :=
  let shortStep : Option ConfirmationResult :=
    if S.gate_yesno_deterministico ∧ is_short_response current_message = true then
      deterministic_short_response current_message pending
    else none
  match shortStep with
  | some short_result =>
    ({ short_result with
        actions := create_confirmation_actions targets short_result env.lead_id },
      store_idempotency now idempotency_key gs)
  | none =>
    if (S.confirm_agent_mode = "llm_first" ∨ S.confirm_agent_mode = "hybrid") ∧
        S.has_openai_client then
      if llm_result.handled then
        if S.confirm_agent_threshold ≤ llm_result.confidence then
          ({ llm_result with
              actions := create_confirmation_actions targets llm_result env.lead_id },
            store_idempotency now idempotency_key gs)
        else ({ reason := "low_confidence" }, gs)
      else gate_fallback S targets now env idempotency_key current_message pending gs
    else gate_fallback S targets now env idempotency_key current_message pending gs

/-- Pending lookup and guards of `process_message` (after the idempotency
check). -/
def gate_checks (S : GateSettings) (targets : List (String × TargetConfig))
    (now : Nat) (env : GateEnv) (store : Option CtxStore)
    (llm_result : ConfirmationResult) (gs : GateState) :
    ConfirmationResult × GateState :=
  let current_message := (env.messages.getLast?).getD ""
  let idempotency_key := build_idempotency_key env.lead_id current_message
  let contexto := if natTruthy env.lead_id then obter_contexto now store else none
  let timeline := match store with
    | some ctx => ctx.timeline
    | none => []
  let pending := get_pending_confirmations targets now S.gate_retroactive_window_min
    contexto timeline
  if pending.isEmpty then ({ reason := "no_pending_confirmations" }, gs)
  else if current_message = "" then ({ reason := "empty_message" }, gs)
  else gate_resolution S targets now env idempotency_key current_message pending
    llm_result gs

/-- The body of `process_message` between lock acquisition and the final
release: idempotency check, context and pending lookup, guards, and the
resolution layers. -/
def gate_body (S : GateSettings) (targets : List (String × TargetConfig))
    (now : Nat) (env : GateEnv) (store : Option CtxStore)
    (llm_result : ConfirmationResult) (gs : GateState) :
    ConfirmationResult × GateState :=
  let current_message := (env.messages.getLast?).getD ""
  let idempotency_key := build_idempotency_key env.lead_id current_message
  match dlookup idempotency_key gs.idem with
  | some ts =>
    if now - ts < 600 then ({ reason := "idempotent_skip" }, gs)
    else
      gate_checks S targets now env store llm_result
        { gs with idem := ddel gs.idem idempotency_key }
  | none => gate_checks S targets now env store llm_result gs

/-- `process_message`: per-lead lock, body, and the `finally` release on
every path inside the lock. -/
def process_message (S : GateSettings) (targets : List (String × TargetConfig))
    (now : Nat) (env : GateEnv) (store : Option CtxStore)
    (llm_result : ConfirmationResult) (gs : GateState) :
    ConfirmationResult × GateState :=
  match acquire_lead_lock now env.lead_id gs with
  | (false, gs1) => ({ reason := "lead_locked" }, gs1)
  | (true, gs1) =>
    let (result, gs2) := gate_body S targets now env store llm_result gs1
    (result, release_lead_lock env.lead_id gs2)

/-! ## Automation Hook (app/core/automation_hook.py) and the expects-reply
timeline writer (app/core/contexto_lead.py) -/

/-- The catalog cache `{item.get("id"): item for item in catalog_list if
item.get("id")}`: a dict comprehension in which a later duplicate id wins
(`dset` replaces in place). -/
def catalogById (catalog : List Automation) : List (String × Automation) :=
  catalog.foldl (fun acc a => match a.id with
    | some i => if i ≠ "" then dset acc i a else acc
    | none => acc) []

/-- `_get_target_ttl`: the target's `max_age_minutes`, default 30 minutes. -/
def get_target_ttl (targets : List (String × TargetConfig)) (target : String) : Nat :=
  match dlookup target targets with
  | some cfg => cfg.max_age_minutes.getD 30
  | none => 30

/-- `on_automation_sent`: arm the waiting confirmation when the send
succeeded and the automation's catalog entry declares an
`expects_reply.target`; the function returns the updated persistent
context.  The single `atualizar_contexto` call writes `aguardando` and
`ultima_automacao_enviada` only. -/
def on_automation_sent (catalog : List Automation)
    (targets : List (String × TargetConfig)) (now : Nat)
    (automation_id : String) (lead_id : Option Nat) (success : Bool)
    (provider_message_id : Option String) (prompt_text : Option String)
    (ctx : CtxStore) : CtxStore :=
  if ¬ success ∨ ¬ natTruthy lead_id ∨ automation_id = "" then ctx
  else
    match dlookup automation_id (catalogById catalog) with
    | none => ctx
    | some cfg =>
      match cfg.expects_reply with
      | none => ctx
      | some er =>
        match er.target with
        | none => ctx
        | some target =>
          if target = "" then ctx
          else
            let ttl_seconds := get_target_ttl targets target * 60
            let ptext := match prompt_text with
              | some p => if p = "" then (cfg.output.text).getD "" else p
              | none => (cfg.output.text).getD ""
            { ctx with
              aguardando := some { tipo := "confirmacao",
                                   targetv := some target,
                                   automation_id := some automation_id,
                                   lead_idv := lead_id,
                                   provider_message_id := provider_message_id,
                                   prompt_text := ptext,
                                   ttl := now + ttl_seconds,
                                   created_at := now },
              ultima_automacao_enviada := some automation_id }

/-- `adicionar_timeline_expects_reply`: append the entry and keep only the
10 most recent (`timeline_atual[-10:]`). -/
def adicionar_timeline_expects_reply (ctx : CtxStore) (entry : TimelineEntry) :
    CtxStore :=
  let timeline1 := ctx.timeline ++ [entry]
  { ctx with timeline :=
      if timeline1.length > 10 then timeline1.drop (timeline1.length - 10)
      else timeline1 }

/-! ## Orchestrator (app/core/orchestrator.py)

`decide_and_plan` awaits several effectful dependencies; each of their
outcomes is an oracle field of `OrchDeps`: an `Except` value when the
Python call can raise, a plain value when it catches all its exceptions
internally (`interpretar_resposta` does).  The `try` block of the source
covers only the three flow handlers; everything before it (context lookup,
short-response handling with its `limpar_aguardando` write) and after it
runs outside the `try`.  The `metadata` dictionary assembled after the
`try` is pure bookkeeping over already-computed values and is not
modelled. -/

/-- The slice of `Env` read by the Orchestrator. -/
structure OrchEnv where
  lead_id : Option Nat := none
  messages : List String := []
  snapshot : Snapshot := {}
deriving DecidableEq, Repr

/-- `Plan` from app/data/schemas.py (`decision_id`, `actions`). -/
structure Plan where
  decision_id : String := ""
  actions : List Action := []
deriving DecidableEq, Repr

/-- Outcomes of the effectful dependencies awaited by `decide_and_plan`. -/
structure OrchDeps where
  obterContexto : Except String (Option CtxStore) := .ok none
  interpretarResposta : Option String := none
  limparAguardando : Except String Unit := .ok ()
  procedureFlow : Except String (List Action) := .ok []
  doubtFlow : Except String (List Action) := .ok []
  fallbackFlow : Except String (List Action) := .ok []

/-- `create_error_action`: the generic apologetic message. -/
def create_error_action : Action :=
  { type := "send_message",
    text := some "Ops, tive um problema interno. Tente novamente em alguns instantes." }

/-- `classify_interaction`: PROCEDIMENTO / DÚVIDA / FALLBACK from the
agreements and signal substrings of the lowered last message. -/
def classify_interaction (env : OrchEnv) : String :=
  let text := strLower ((env.messages.getLast?).getD "")
  let procedure_signals := ["quero", "teste", "liberar", "testar", "começar",
                            "sim", "consigo", "pode", "vamos"]
  let doubt_signals := ["como", "onde", "quando", "que", "qual", "quanto",
                        "dúvida", "ajuda", "não entendi", "explicar", "?",
                        "funciona", "faz", "valor", "preciso", "posso",
                        "consegue", "saber", "informação"]
  let wants_test := Val.truthy (dget env.snapshot.agreements "wants_test" (Val.b false))
  let has_active_agreement := env.snapshot.agreements.any (fun kv => Val.truthy kv.2)
  if wants_test ∨ has_active_agreement then "PROCEDIMENTO"
  else if procedure_signals.any (fun sig => substr sig text) then "PROCEDIMENTO"
  else if doubt_signals.any (fun sig => substr sig text) then "DÚVIDA"
  else "FALLBACK"

/-- `handle_confirmacao_curta`: error-action plan without an armed waiting
state; otherwise answer by polarity and clear the waiting state (that
`limpar_aguardando` write runs outside any `try` and its exception
propagates). -/
def handle_confirmacao_curta (deps : OrchDeps) (lead_id : Option Nat)
    (contexto : Option CtxStore) (posicao : String) (decision_id : String) :
    Except String Plan :=
  match contexto with
  | none => .ok { decision_id := decision_id, actions := [create_error_action] }
  | some ctx =>
    match ctx.aguardando with
    | none => .ok { decision_id := decision_id, actions := [create_error_action] }
    | some _ =>
      let texto := if posicao = "afirmacao" then "Perfeito! Vamos continuar então."
        else "Entendi. Vamos ver outras opções."
      match (if natTruthy lead_id then deps.limparAguardando else .ok ()) with
      | .error e => .error e
      | .ok _ => .ok { decision_id := decision_id,
                       actions := [{ type := "send_message", text := some texto }] }

/-- `decide_and_plan`: context lookup and short-response handling before the
`try`, then the flow dispatch whose exceptions — and only whose
exceptions — degrade to `[create_error_action]`. -/
def decide_and_plan (deps : OrchDeps) (env : OrchEnv) (decision_id : String) :
    Except String Plan :=
  match (if natTruthy env.lead_id then deps.obterContexto else .ok none) with
  | .error e => .error e
  | .ok contexto_lead =>
    match deps.interpretarResposta with
    | some posicao =>
      handle_confirmacao_curta deps env.lead_id contexto_lead posicao decision_id
    | none =>
      let interaction_type := classify_interaction env
      let flow : Except String (List Action) :=
        if interaction_type = "PROCEDIMENTO" then deps.procedureFlow
        else if interaction_type = "DÚVIDA" then deps.doubtFlow
        else deps.fallbackFlow
      let actions := match flow with
        | .ok acts => acts
        | .error _ => [create_error_action]
      .ok { decision_id := decision_id, actions := actions }

/-- The nyrion merge stage of the accounts dictionary. -/
def nyrionStage (s : Snapshot) (c : List (String × Val)) : List (String × String) :=
  if dmem "nyrion_id" c then
    if evidencia_melhor_ou_igual (.s "candidato")
        (.s (dget s.accounts "nyrion" "desconhecido")) HIERARQUIA_ACCOUNTS then
      dset s.accounts "nyrion" "candidato"
    else s.accounts
  else s.accounts

/-! ## Concrete sample inputs used by the scenario witnesses and
counterexamples below -/

/-- A one-automation catalog whose entry expects a reply for
`confirm_can_deposit`. -/
def catalogEx : List Automation :=
  [{ id := some "ask_deposit_for_test",
     output := { text := some "Você consegue fazer um depósito?" },
     expects_reply := some { target := some "confirm_can_deposit" } }]

/-- A one-target `confirm_targets.yml` store with the claim's `on_yes` facts
and an `on_no` outcome that only sets a fact to `false`. -/
def targetsEx : List (String × TargetConfig) :=
  [("confirm_can_deposit",
    { on_yes := some { facts := [("can_deposit", Val.b true)] },
      on_no := some { facts := [("can_deposit", Val.b false)] } })]

/-- A gate environment with a non-zero lead id and a single-message window. -/
def gateEnvEx (n : Nat) (msg : String) : GateEnv :=
  { lead_id := some n, messages := [msg] }

/-- A persisted context whose `waiting` entry is an armed confirmation for
`confirm_can_deposit` with the given TTL and timeline. -/
def gateStoreEx (ttlv : Nat) (tl : List TimelineEntry) : Option CtxStore :=
  some { aguardando := some { tipo := "confirmacao",
                              targetv := some "confirm_can_deposit",
                              ttl := ttlv },
         timeline := tl }

/-- Settings with the deterministic short-circuit flag enabled. -/
def settingsDetEx : GateSettings :=
  { gate_yesno_deterministico := true }

/-! ## Association-list lemmas (Python dict semantics) -/

@[simp] theorem dlookup_dset_self (l : List (String × α)) (k : String) (v : α) :
    dlookup k (dset l k v) = some v := by
  induction l with
  | nil => simp [dset, dlookup]
  | cons p t ih =>
    obtain ⟨k1, v1⟩ := p
    by_cases h : k1 = k <;> simp [dset, dlookup, h, ih]

theorem dlookup_dset_ne (l : List (String × α)) {k k1 : String} (v : α) (h : k1 ≠ k) :
    dlookup k1 (dset l k v) = dlookup k1 l := by
  induction l with
  | nil =>
    simp only [dset, dlookup]
    rw [if_neg (fun hh => h hh.symm)]
  | cons p t ih =>
    obtain ⟨k2, v2⟩ := p
    simp only [dset]
    by_cases h2 : k2 = k
    · rw [if_pos h2]
      simp only [dlookup]
      rw [if_neg (fun hh => h hh.symm), if_neg (fun hh => h (h2.symm.trans hh).symm)]
    · rw [if_neg h2]
      simp only [dlookup]
      by_cases h3 : k2 = k1
      · rw [if_pos h3, if_pos h3]
      · rw [if_neg h3, if_neg h3]
        exact ih

@[simp] theorem dget_dset_self (l : List (String × α)) (k : String) (v dflt : α) :
    dget (dset l k v) k dflt = v := by
  simp [dget]

theorem dget_dset_ne (l : List (String × α)) {k k1 : String} (v dflt : α) (h : k1 ≠ k) :
    dget (dset l k v) k1 dflt = dget l k1 dflt := by
  simp [dget, dlookup_dset_ne l v h]

/-! ## Theorems about the non-regressive merge -/

/-- Case analysis for a ranked deposit-status value. -/
theorem rankDeposit_cases {v : Val} {i : Nat}
    (h : rankIn HIERARQUIA_DEPOSIT v = some i) :
    (v = .s "nenhum" ∧ i = 0) ∨ (v = .s "pendente" ∧ i = 1) ∨
      (v = .s "confirmado" ∧ i = 2) := by
  cases v with
  | s str =>
    simp only [rankIn, hierIndex, HIERARQUIA_DEPOSIT, idxOf, List.reverse] at h
    by_cases h1 : str = "nenhum"
    · subst h1; simp [idxOf] at h; simp [h.symm]
    · by_cases h2 : str = "pendente"
      · subst h2; simp [idxOf] at h; simp [h.symm]
      · by_cases h3 : str = "confirmado"
        · subst h3; simp [idxOf] at h; simp [h.symm]
        · exfalso
          rw [if_neg (fun hh => h1 hh.symm), if_neg (fun hh => h2 hh.symm),
            if_neg (fun hh => h3 hh.symm)] at h
          simp at h
  | b bv => simp [rankIn, hierIndex] at h
  | n nv => simp [rankIn, hierIndex] at h
  | nil => simp [rankIn, hierIndex] at h

/-- Case analysis for a ranked account-status value. -/
theorem rankAccounts_cases {v : Val} {i : Nat}
    (h : rankIn HIERARQUIA_ACCOUNTS v = some i) :
    (v = .s "desconhecido" ∧ i = 0) ∨ (v = .s "candidato" ∧ i = 1) ∨
      (v = .s "verificado" ∧ i = 2) ∨ (v = .s "com_conta" ∧ i = 3) := by
  cases v with
  | s str =>
    simp only [rankIn, hierIndex, HIERARQUIA_ACCOUNTS, idxOf, List.reverse] at h
    by_cases h1 : str = "desconhecido"
    · subst h1; simp [idxOf] at h; simp [h.symm]
    · by_cases h2 : str = "candidato"
      · subst h2; simp [idxOf] at h; simp [h.symm]
      · by_cases h3 : str = "verificado"
        · subst h3; simp [idxOf] at h; simp [h.symm]
        · by_cases h4 : str = "com_conta"
          · subst h4; simp [idxOf] at h; simp [h.symm]
          · exfalso
            rw [if_neg (fun hh => h1 hh.symm), if_neg (fun hh => h2 hh.symm),
              if_neg (fun hh => h3 hh.symm), if_neg (fun hh => h4 hh.symm)] at h
            simp at h
  | b bv => simp [rankIn, hierIndex] at h
  | n nv => simp [rankIn, hierIndex] at h
  | nil => simp [rankIn, hierIndex] at h

/-- The deposit field of the merged snapshot, unfolded. -/
theorem merge_deposit_eq (s : Snapshot) (c : List (String × Val)) :
    (merge_nao_regressivo s c).deposit =
      (match dlookup "deposit_evidence" c with
        | some novo_valor =>
          if evidencia_melhor_ou_igual novo_valor
              (dget s.deposit "status" (.s "nenhum")) HIERARQUIA_DEPOSIT then
            dset s.deposit "status" novo_valor
          else s.deposit
        | none => s.deposit) := rfl

/-- The agreements field of the merged snapshot, unfolded. -/
theorem merge_agreements_eq (s : Snapshot) (c : List (String × Val)) :
    (merge_nao_regressivo s c).agreements =
      (if dlookup "intent" c = some (.s "teste") then
        dset s.agreements "wants_test" (.b true)
      else s.agreements) := rfl

/-- The accounts field of the merged snapshot, unfolded. -/
theorem merge_accounts_eq (s : Snapshot) (c : List (String × Val)) :
    (merge_nao_regressivo s c).accounts =
      (if dmem "quotex_id" c then
        if evidencia_melhor_ou_igual (.s "candidato")
            (.s (dget (nyrionStage s c) "quotex" "desconhecido")) HIERARQUIA_ACCOUNTS then
          dset (nyrionStage s c) "quotex" "candidato"
        else nyrionStage s c
      else nyrionStage s c) := rfl

/-- The quotex merge stage never touches the nyrion binding. -/
theorem quotex_stage_nyrion (acc1 : List (String × String)) (P Q : Bool) :
    dget (if P then (if Q then dset acc1 "quotex" "candidato" else acc1) else acc1)
        "nyrion" "desconhecido" =
      dget acc1 "nyrion" "desconhecido" := by
  have hne : ("nyrion" : String) ≠ "quotex" := by decide
  cases P <;> cases Q <;> simp [dget_dset_ne _ _ _ hne]

/-- The nyrion account after the merge, as a single conditional. -/
theorem merge_nyrion_val (s : Snapshot) (c : List (String × Val)) :
    dget (merge_nao_regressivo s c).accounts "nyrion" "desconhecido" =
      (if dmem "nyrion_id" c ∧
          evidencia_melhor_ou_igual (.s "candidato")
            (.s (dget s.accounts "nyrion" "desconhecido")) HIERARQUIA_ACCOUNTS = true then
        "candidato"
      else dget s.accounts "nyrion" "desconhecido") := by
  rw [merge_accounts_eq, quotex_stage_nyrion, nyrionStage]
  by_cases hn : dmem "nyrion_id" c
  · by_cases he : evidencia_melhor_ou_igual (.s "candidato")
        (.s (dget s.accounts "nyrion" "desconhecido")) HIERARQUIA_ACCOUNTS = true
    · simp [hn, he]
    · simp [hn, he]
  · simp [hn]

/-- The nyrion merge stage never touches the quotex binding. -/
theorem nyrion_stage_quotex (s : Snapshot) (c : List (String × Val)) :
    dget (nyrionStage s c) "quotex" "desconhecido" =
      dget s.accounts "quotex" "desconhecido" := by
  have hne : ("quotex" : String) ≠ "nyrion" := by decide
  rw [nyrionStage]
  split
  · split
    · rw [dget_dset_ne _ _ _ hne]
    · rfl
  · rfl

/-- The quotex account after the merge, as a single conditional. -/
theorem merge_quotex_val (s : Snapshot) (c : List (String × Val)) :
    dget (merge_nao_regressivo s c).accounts "quotex" "desconhecido" =
      (if dmem "quotex_id" c ∧
          evidencia_melhor_ou_igual (.s "candidato")
            (.s (dget s.accounts "quotex" "desconhecido")) HIERARQUIA_ACCOUNTS = true then
        "candidato"
      else dget s.accounts "quotex" "desconhecido") := by
  rw [merge_accounts_eq]
  rw [nyrion_stage_quotex]
  by_cases hq : dmem "quotex_id" c
  · by_cases he : evidencia_melhor_ou_igual (.s "candidato")
        (.s (dget s.accounts "quotex" "desconhecido")) HIERARQUIA_ACCOUNTS = true
    · simp [hq, he, nyrion_stage_quotex]
    · simp [hq, he, nyrion_stage_quotex]
  · simp [hq, nyrion_stage_quotex]

/-- C2: the snapshot merge is non-regressive.  For the deposit fact, any
incoming evidence value ranking no higher than the current value leaves the
status unchanged, and a value replaces the current one only when its
hierarchy position is equal or better; for each account fact the incoming
evidence produced by the extractor is `candidato`, and it never downgrades
a value that ranks at least as high; the boolean `wants_test` agreement is
either left alone or set to `true`, never reset to `false`. -/
theorem merge_non_regressive (s : Snapshot) (c : List (String × Val)) :
    (∀ a b ia ib,
        dget s.deposit "status" (.s "nenhum") = a →
        dlookup "deposit_evidence" c = some b →
        rankIn HIERARQUIA_DEPOSIT a = some ia →
        rankIn HIERARQUIA_DEPOSIT b = some ib → ib ≤ ia →
        dget (merge_nao_regressivo s c).deposit "status" (.s "nenhum") = a) ∧
    (∀ b, dlookup "deposit_evidence" c = some b →
        evidencia_melhor_ou_igual b (dget s.deposit "status" (.s "nenhum"))
            HIERARQUIA_DEPOSIT = false →
        (merge_nao_regressivo s c).deposit = s.deposit) ∧
    (∀ a ia ib,
        dget s.accounts "nyrion" "desconhecido" = a →
        rankIn HIERARQUIA_ACCOUNTS (.s a) = some ia →
        rankIn HIERARQUIA_ACCOUNTS (.s "candidato") = some ib → ib ≤ ia →
        dget (merge_nao_regressivo s c).accounts "nyrion" "desconhecido" = a) ∧
    (∀ a ia ib,
        dget s.accounts "quotex" "desconhecido" = a →
        rankIn HIERARQUIA_ACCOUNTS (.s a) = some ia →
        rankIn HIERARQUIA_ACCOUNTS (.s "candidato") = some ib → ib ≤ ia →
        dget (merge_nao_regressivo s c).accounts "quotex" "desconhecido" = a) ∧
    (dget (merge_nao_regressivo s c).agreements "wants_test" (.b false) =
        dget s.agreements "wants_test" (.b false) ∨
      dget (merge_nao_regressivo s c).agreements "wants_test" (.b false) = .b true) := by
  refine ⟨?_, ?_, ?_, ?_, ?_⟩
  · intro a b ia ib ha hb hra hrb hle
    rw [merge_deposit_eq, hb]
    dsimp only
    rcases rankDeposit_cases hra with ⟨rfl, rfl⟩ | ⟨rfl, rfl⟩ | ⟨rfl, rfl⟩ <;>
      rcases rankDeposit_cases hrb with ⟨rfl, rfl⟩ | ⟨rfl, rfl⟩ | ⟨rfl, rfl⟩ <;>
        first
          | omega
          | (rw [ha]
             first
               | (rw [if_pos (by decide)]
                  simp)
               | (rw [if_neg (by decide)]
                  exact ha))
  · intro b hb hev
    rw [merge_deposit_eq, hb]
    simp [hev]
  · intro a ia ib ha hra hrb hle
    have hib : ib = 1 := by
      rcases rankAccounts_cases hrb with ⟨h, rfl⟩ | ⟨h, rfl⟩ | ⟨h, rfl⟩ | ⟨h, rfl⟩ <;>
        simp_all
    subst hib
    rw [merge_nyrion_val, ha]
    rcases rankAccounts_cases hra with ⟨h, rfl⟩ | ⟨h, rfl⟩ | ⟨h, rfl⟩ | ⟨h, rfl⟩ <;>
      (injection h with h; subst h) <;>
        first
          | omega
          | rw [ite_self]
          | rw [if_neg (fun hc => absurd hc.2 (by decide))]
  · intro a ia ib ha hra hrb hle
    have hib : ib = 1 := by
      rcases rankAccounts_cases hrb with ⟨h, rfl⟩ | ⟨h, rfl⟩ | ⟨h, rfl⟩ | ⟨h, rfl⟩ <;>
        simp_all
    subst hib
    rw [merge_quotex_val, ha]
    rcases rankAccounts_cases hra with ⟨h, rfl⟩ | ⟨h, rfl⟩ | ⟨h, rfl⟩ | ⟨h, rfl⟩ <;>
      (injection h with h; subst h) <;>
        first
          | omega
          | rw [ite_self]
          | rw [if_neg (fun hc => absurd hc.2 (by decide))]
  · rw [merge_agreements_eq]
    by_cases hi : dlookup "intent" c = some (Val.s "teste")
    · right
      simp [hi]
    · left
      simp [hi]

/-- Witness for C2 at a concrete snapshot: a weaker deposit evidence
(`nenhum` after `pendente`) and weaker account evidence (`candidato` after
`verificado`) leave both facts unchanged. -/
theorem merge_non_regressive_witness :
    dget (merge_nao_regressivo
        { accounts := [("nyrion", "verificado"), ("quotex", "desconhecido")],
          deposit := [("status", .s "pendente")],
          agreements := [("wants_test", .b false)] }
        [("nyrion_id", .s "123456"), ("deposit_evidence", .s "nenhum")]).deposit
      "status" (.s "nenhum") = .s "pendente" ∧
    dget (merge_nao_regressivo
        { accounts := [("nyrion", "verificado"), ("quotex", "desconhecido")],
          deposit := [("status", .s "pendente")],
          agreements := [("wants_test", .b false)] }
        [("nyrion_id", .s "123456"), ("deposit_evidence", .s "nenhum")]).accounts
      "nyrion" "desconhecido" = "verificado" :=
  ⟨(merge_non_regressive _ _).1 (.s "pendente") (.s "nenhum") 1 0
      (by decide) (by decide) (by decide) (by decide) (by decide),
    (merge_non_regressive _ _).2.2.1 "verificado" 2 1
      (by decide) (by decide) (by decide) (by decide)⟩

/-- C10 (amended): the non-regressive merge is total by construction (it is
a plain function on every input); `flags`, `history_summary`, `kb_context`,
the deposit amount and every other key of `accounts`, `deposit` and
`agreements` are returned unchanged, and a candidate deposit value outside
the hierarchy vocabulary never replaces the current one — but beyond
`accounts["nyrion"]`, `accounts["quotex"]`, `deposit["status"]` and
`agreements["wants_test"]` the merge also touches `llm_signals`: the
snapshot reconstruction omits it, resetting it to the empty dict. -/
theorem merge_frame (s : Snapshot) (c : List (String × Val)) :
    ((merge_nao_regressivo s c).flags = s.flags ∧
      (merge_nao_regressivo s c).history_summary = s.history_summary ∧
      (merge_nao_regressivo s c).kb_context = s.kb_context ∧
      (merge_nao_regressivo s c).llm_signals = []) ∧
    (∀ k, k ≠ "nyrion" → k ≠ "quotex" →
      dlookup k (merge_nao_regressivo s c).accounts = dlookup k s.accounts) ∧
    (∀ k, k ≠ "status" →
      dlookup k (merge_nao_regressivo s c).deposit = dlookup k s.deposit) ∧
    (∀ k, k ≠ "wants_test" →
      dlookup k (merge_nao_regressivo s c).agreements = dlookup k s.agreements) ∧
    (∀ b, dlookup "deposit_evidence" c = some b →
      hierIndex HIERARQUIA_DEPOSIT b = none →
      (merge_nao_regressivo s c).deposit = s.deposit) := by
  refine ⟨⟨rfl, rfl, rfl, rfl⟩, ?_, ?_, ?_, ?_⟩
  · intro k hk1 hk2
    rw [merge_accounts_eq]
    have hstage : dlookup k (nyrionStage s c) = dlookup k s.accounts := by
      rw [nyrionStage]
      split
      · split
        · rw [dlookup_dset_ne _ _ hk1]
        · rfl
      · rfl
    split
    · split
      · rw [dlookup_dset_ne _ _ hk2, hstage]
      · exact hstage
    · exact hstage
  · intro k hk
    rw [merge_deposit_eq]
    split
    · split
      · rw [dlookup_dset_ne _ _ hk]
      · rfl
    · rfl
  · intro k hk
    rw [merge_agreements_eq]
    split
    · rw [dlookup_dset_ne _ _ hk]
    · rfl
  · intro b hb hvoc
    rw [merge_deposit_eq, hb]
    dsimp only
    rw [if_neg]
    simp [evidencia_melhor_ou_igual, hvoc]

/-- C10 counterexample: the merge does not return `llm_signals` as in the
input snapshot — the source rebuilds the `Snapshot` without passing
`llm_signals`, so a non-empty signal dictionary comes back empty even when
the candidate set is empty. -/
theorem merge_resets_llm_signals :
    ({ llm_signals := [("propose_automations", Val.s "ask_deposit")] } : Snapshot).llm_signals ≠ [] ∧
    (merge_nao_regressivo
        { llm_signals := [("propose_automations", Val.s "ask_deposit")] }
        []).llm_signals = [] := by
  decide

/-- Witness for C10 at a concrete snapshot: the merge leaves the deposit
amount, the `can_deposit` agreement and the flags unchanged, and an
out-of-vocabulary deposit evidence leaves the whole deposit dictionary
unchanged. -/
theorem merge_frame_witness :
    dlookup "amount" (merge_nao_regressivo
        { deposit := [("status", .s "nenhum"), ("amount", .n 50)],
          agreements := [("can_deposit", .b true)],
          flags := [("explained", .b true)] }
        [("deposit_evidence", .n 7), ("intent", .s "teste")]).deposit =
      some (.n 50) ∧
    dlookup "can_deposit" (merge_nao_regressivo
        { deposit := [("status", .s "nenhum"), ("amount", .n 50)],
          agreements := [("can_deposit", .b true)],
          flags := [("explained", .b true)] }
        [("deposit_evidence", .n 7), ("intent", .s "teste")]).agreements =
      some (.b true) ∧
    (merge_nao_regressivo
        { deposit := [("status", .s "nenhum"), ("amount", .n 50)],
          agreements := [("can_deposit", .b true)],
          flags := [("explained", .b true)] }
        [("deposit_evidence", .n 7), ("intent", .s "teste")]).deposit =
      [("status", .s "nenhum"), ("amount", .n 50)] := by
  refine ⟨?_, ?_, ?_⟩
  · rw [(merge_frame _ _).2.2.1 "amount" (by decide)]
    decide
  · rw [(merge_frame _ _).2.2.2.1 "can_deposit" (by decide)]
    decide
  · rw [(merge_frame _ _).2.2.2.2 (.n 7) (by decide) (by decide)]

/-! ## Selector theorems -/

theorem prioGe_trans : ∀ a b c : Automation,
    prioGe a b → prioGe b c → prioGe a c := by
  intro a b c hab hbc
  simp only [prioGe, decide_eq_true_eq] at *
  exact le_trans hbc hab

theorem prioGe_total : ∀ a b : Automation, prioGe a b || prioGe b a := by
  intro a b
  simp only [prioGe, Bool.or_eq_true, decide_eq_true_eq]
  exact le_total b.priority a.priority

theorem find?_congr {α : Type} {p q : α → Bool} :
    ∀ l : List α, (∀ x ∈ l, p x = q x) → l.find? p = l.find? q := by
  intro l
  induction l with
  | nil => intro _; rfl
  | cons a t ih =>
    intro h
    rcases hq : q a with _ | _
    · rw [List.find?_cons_of_neg _ (by simp [h a (List.mem_cons_self a t), hq]),
        List.find?_cons_of_neg _ (by simp [hq])]
      exact ih (fun x hx => h x (List.mem_cons_of_mem a hx))
    · rw [List.find?_cons_of_pos _ (by simp [h a (List.mem_cons_self a t), hq]),
        List.find?_cons_of_pos _ (by simp [hq])]

/-- The head of the stable descending sort used by the Selector is the first
element of maximal priority, in input order. -/
theorem head_mergeSort_prio : ∀ l : List Automation,
    (l.mergeSort prioGe).head? =
      l.find? (fun x => l.all (fun y => decide (y.priority ≤ x.priority))) := by
  intro l
  induction l with
  | nil => simp
  | cons a t ih =>
    obtain ⟨l₁, l₂, h₁, h₂, h₃⟩ := List.mergeSort_cons prioGe_trans prioGe_total a t
    have hsorted := List.sorted_mergeSort prioGe_trans prioGe_total (a :: t)
    rw [h₁] at hsorted
    cases l₁ with
    | nil =>
      simp only [List.nil_append] at h₁ h₂ hsorted
      rw [h₁]
      have hpa : (a :: t).all (fun y => decide (y.priority ≤ a.priority)) = true := by
        rw [List.all_eq_true]
        intro y hy
        rcases List.mem_cons.mp hy with rfl | hyt
        · simp
        · have hy2 : y ∈ l₂ := by
            rw [← h₂]
            simpa using hyt
          have := (List.pairwise_cons.mp hsorted).1 y hy2
          simpa [prioGe] using this
      have hposA : ((fun x => (a :: t).all fun y => decide (y.priority ≤ x.priority)) a) = true := hpa
      rw [List.find?_cons_of_pos t hposA]
      rfl
    | cons c l₁t =>
      have hca : a.priority < c.priority := by
        have := h₃ c (List.mem_cons_self c l₁t)
        simp only [prioGe, Bool.not_eq_eq_eq_not, Bool.not_true, decide_eq_false_iff_not] at this
        exact lt_of_not_le this
      have hct : c ∈ t := by
        have : c ∈ t.mergeSort prioGe := by
          rw [h₂]
          exact List.mem_append_left _ (List.mem_cons_self c l₁t)
        simpa using this
      have hfa : (a :: t).all (fun y => decide (y.priority ≤ a.priority)) = false := by
        rcases hall : (a :: t).all (fun y => decide (y.priority ≤ a.priority)) with _ | _
        · rfl
        · exfalso
          have := List.all_eq_true.mp hall c (List.mem_cons_of_mem a hct)
          simp only [decide_eq_true_eq] at this
          exact absurd this (not_le_of_lt hca)
      have hcongr : ∀ x ∈ t,
          ((a :: t).all (fun y => decide (y.priority ≤ x.priority))) =
            (t.all (fun y => decide (y.priority ≤ x.priority))) := by
        intro x _
        rcases hx : t.all (fun y => decide (y.priority ≤ x.priority)) with _ | _
        · simp [List.all_cons, hx]
        · have hcx : c.priority ≤ x.priority := by
            have := List.all_eq_true.mp hx c hct
            simpa using this
          simp [List.all_cons, hx, le_of_lt (lt_of_lt_of_le hca hcx)]
      have hnegA : ¬ ((fun x => (a :: t).all fun y => decide (y.priority ≤ x.priority)) a) = true := by
        simp only [hfa]
        exact Bool.false_ne_true
      rw [h₁]
      simp only [List.cons_append, List.head?_cons]
      rw [List.find?_cons_of_neg t hnegA,
        @find?_congr Automation
          (fun x => (a :: t).all fun y => decide (y.priority ≤ x.priority))
          (fun x => t.all fun y => decide (y.priority ≤ x.priority)) t hcongr,
        ← ih, h₂]
      simp

/-- C9: whenever at least one catalog automation is eligible for the given
snapshot and message window, the Selector returns the converted action of an
eligible automation of maximal priority, and among equally maximal
priorities it is the one appearing first in catalog declaration order
(`find?` of the maximality predicate over the eligible list). -/
theorem selector_priority_ordering (catalog : List Automation) (snapshot : Snapshot)
    (messages : List String)
    (h : eligibleFor catalog snapshot messages ≠ []) :
    ∃ selected,
      select_automation catalog snapshot messages =
        some (convert_automation_to_action selected) ∧
      selected ∈ eligibleFor catalog snapshot messages ∧
      (∀ b ∈ eligibleFor catalog snapshot messages,
        b.priority ≤ selected.priority) ∧
      (eligibleFor catalog snapshot messages).find?
          (fun x => (eligibleFor catalog snapshot messages).all
            (fun y => decide (y.priority ≤ x.priority))) = some selected := by
  have hcat : catalog.isEmpty = false := by
    rcases hc : catalog.isEmpty with _ | _
    · rfl
    · exfalso
      apply h
      rw [eligibleFor, List.isEmpty_iff.mp hc]
      rfl
  have hne : ((eligibleFor catalog snapshot messages).mergeSort prioGe) ≠ [] := by
    intro hempty
    apply h
    have := List.mergeSort_perm (eligibleFor catalog snapshot messages) prioGe
    rw [hempty] at this
    exact (List.Perm.nil_eq this).symm
  rcases hh : ((eligibleFor catalog snapshot messages).mergeSort prioGe).head? with _ | ⟨selected⟩
  · exact absurd (List.head?_eq_none_iff.mp hh) hne
  refine ⟨selected, ?_, ?_, ?_, ?_⟩
  · simp only [select_automation, hcat, Bool.false_eq_true, if_false, hh]
  · have := head_mergeSort_prio (eligibleFor catalog snapshot messages)
    rw [hh] at this
    exact List.mem_of_find?_eq_some this.symm
  · intro b hb
    have hfind := head_mergeSort_prio (eligibleFor catalog snapshot messages)
    rw [hh] at hfind
    have hp := List.find?_some hfind.symm
    have := List.all_eq_true.mp hp b hb
    simpa using this
  · have := head_mergeSort_prio (eligibleFor catalog snapshot messages)
    rw [hh] at this
    exact this.symm

/-- Witness for C9: a three-automation catalog with priorities
`[0.5, 0.9, 0.9]`, all eligible, on which the theorem applies. -/
theorem selector_priority_ordering_witness :
    eligibleFor
        [{ id := some "a", priority := 1/2, output := { text := some "A" } },
         { id := some "b", priority := 9/10, output := { text := some "B" } },
         { id := some "c", priority := 9/10, output := { text := some "C" } }]
        {} ["olá"] ≠ [] ∧
    ∃ selected,
      select_automation
          [{ id := some "a", priority := 1/2, output := { text := some "A" } },
           { id := some "b", priority := 9/10, output := { text := some "B" } },
           { id := some "c", priority := 9/10, output := { text := some "C" } }]
          {} ["olá"] =
        some (convert_automation_to_action selected) ∧
      selected ∈ eligibleFor
          [{ id := some "a", priority := 1/2, output := { text := some "A" } },
           { id := some "b", priority := 9/10, output := { text := some "B" } },
           { id := some "c", priority := 9/10, output := { text := some "C" } }]
          {} ["olá"] ∧
      (∀ b ∈ eligibleFor
          [{ id := some "a", priority := 1/2, output := { text := some "A" } },
           { id := some "b", priority := 9/10, output := { text := some "B" } },
           { id := some "c", priority := 9/10, output := { text := some "C" } }]
          {} ["olá"], b.priority ≤ selected.priority) ∧
      (eligibleFor
          [{ id := some "a", priority := 1/2, output := { text := some "A" } },
           { id := some "b", priority := 9/10, output := { text := some "B" } },
           { id := some "c", priority := 9/10, output := { text := some "C" } }]
          {} ["olá"]).find?
          (fun x => (eligibleFor
              [{ id := some "a", priority := 1/2, output := { text := some "A" } },
               { id := some "b", priority := 9/10, output := { text := some "B" } },
               { id := some "c", priority := 9/10, output := { text := some "C" } }]
              {} ["olá"]).all
            (fun y => decide (y.priority ≤ x.priority))) = some selected :=
  ⟨by decide, selector_priority_ordering _ _ _ (by decide)⟩

/-! ## Procedures theorems -/

theorem find?_first_of_append {α : Type} (p : α → Bool) :
    ∀ (l₁ : List α) (st : α) (l₂ : List α),
      (∀ s ∈ l₁, p s = false) → p st = true →
      (l₁ ++ st :: l₂).find? p = some st := by
  intro l₁
  induction l₁ with
  | nil =>
    intro st l₂ _ hst
    simp [List.find?_cons, hst]
  | cons a t ih =>
    intro st l₂ hall hst
    have ha : p a = false := hall a (List.mem_cons_self a t)
    simp only [List.cons_append, List.find?_cons, ha]
    exact ih st l₂ (fun s hs => hall s (List.mem_cons_of_mem a hs)) hst

/-- C8 counterexample: a procedure whose first step is unsatisfied but
declares no `if_missing` corrective action still executes the final step's
terminal action, so the terminal action is not executed "only when every
step's condition is satisfied". -/
theorem run_procedure_final_despite_gap :
    is_step_satisfied "concordou em depositar" ({} : Snapshot) = false ∧
    (run_procedure []
        [{ id := some "proc_x",
           steps := [{ condition := "concordou em depositar" },
                     { condition := "", doSpec := some { automation := some "finish" } }] }]
        "proc_x" {}).actions =
      [{ type := "send_message", text := some "Ação do passo: finish" }] := by
  decide

/-- C8 (amended): when the steps split as satisfied prefix `l₁`, first
unsatisfied step `st` and arbitrary suffix `l₂`, and `st`'s `if_missing`
reference resolves to an action `a`, `run_procedure` returns exactly `[a]`;
the suffix (any later step) never influences the result.  When the
unsatisfied step yields no corrective action the code falls through to the
final-action branch instead. -/
theorem run_procedure_stop_at_first_gap
    (catalog : List Automation) (procedures : List Procedure) (proc_id : String)
    (snapshot : Snapshot) (proc : Procedure) (l₁ l₂ : List Step) (st : Step) (a : Action)
    (hfind : find_procedure procedures proc_id = some proc)
    (hsteps : proc.steps = l₁ ++ st :: l₂)
    (hsat : ∀ s ∈ l₁, is_step_satisfied s.condition snapshot = true)
    (hunsat : is_step_satisfied st.condition snapshot = false)
    (hact : execute_step_action catalog st = some a) :
    (run_procedure catalog procedures proc_id snapshot).actions = [a] := by
  have hfindstep :
      proc.steps.find? (fun step => !is_step_satisfied step.condition snapshot) = some st := by
    rw [hsteps]
    exact find?_first_of_append _ l₁ st l₂
      (fun s hs => by simp [hsat s hs]) (by simp [hunsat])
  simp only [run_procedure, hfind, hfindstep, hact, Option.toList_some]
  simp

/-- Witness for C8 at the claim's concrete shape: a three-step procedure
with step 1 satisfied, step 2 unsatisfied with a catalog-resolved
corrective action, and an arbitrary step 3; exactly step 2's corrective
action is returned. -/
theorem run_procedure_stop_at_first_gap_witness :
    (run_procedure
        [{ id := some "nudge2",
           output := { typ := some "send_message", text := some "Passo 2" } }]
        [{ id := some "liberar_teste",
           steps := [{ condition := "" },
                     { condition := "já depositou",
                       if_missing := some { automation := some "nudge2" } },
                     { condition := "", doSpec := some { automation := some "finish" } }] }]
        "liberar_teste" {}).actions =
      [{ type := "send_message", text := some "Passo 2",
         automation_id := some "nudge2" }] :=
  run_procedure_stop_at_first_gap
    [{ id := some "nudge2",
       output := { typ := some "send_message", text := some "Passo 2" } }]
    [{ id := some "liberar_teste",
       steps := [{ condition := "" },
                 { condition := "já depositou",
                   if_missing := some { automation := some "nudge2" } },
                 { condition := "", doSpec := some { automation := some "finish" } }] }]
    "liberar_teste" {}
    { id := some "liberar_teste",
      steps := [{ condition := "" },
                { condition := "já depositou",
                  if_missing := some { automation := some "nudge2" } },
                { condition := "", doSpec := some { automation := some "finish" } }] }
    [{ condition := "" }]
    [{ condition := "", doSpec := some { automation := some "finish" } }]
    { condition := "já depositou", if_missing := some { automation := some "nudge2" } }
    { type := "send_message", text := some "Passo 2", automation_id := some "nudge2" }
    (by decide) rfl (by decide) (by decide) (by decide)

/-! ## Gate helper lemmas -/

theorem dlookup_ddel_self (l : List (String × α)) (k : String) :
    dlookup k (ddel l k) = none := by
  induction l with
  | nil => rfl
  | cons p t ih =>
    obtain ⟨k1, v1⟩ := p
    by_cases h : k1 = k
    · simpa [ddel, h] using ih
    · simpa [ddel, dlookup, h] using ih

theorem ddel_of_lookup_none (l : List (String × α)) (k : String)
    (h : dlookup k l = none) : ddel l k = l := by
  induction l with
  | nil => rfl
  | cons p t ih =>
    obtain ⟨k1, v1⟩ := p
    simp only [dlookup] at h
    by_cases hk : k1 = k
    · simp [hk] at h
    · simp only [ddel, List.filter_cons]
      rw [if_pos (by simpa using hk)]
      have := ih (by simpa [hk] using h)
      simpa [ddel] using this

theorem dset_of_lookup_none (l : List (String × α)) (k : String) (v : α)
    (h : dlookup k l = none) : dset l k v = l ++ [(k, v)] := by
  induction l with
  | nil => rfl
  | cons p t ih =>
    obtain ⟨k1, v1⟩ := p
    simp only [dlookup] at h
    by_cases hk : k1 = k
    · simp [hk] at h
    · simp only [dset, hk, if_false, List.cons_append]
      rw [ih (by simpa [hk] using h)]

theorem ddel_dset_cancel (l : List (String × α)) (k : String) (v : α)
    (h : dlookup k l = none) : ddel (dset l k v) k = l := by
  rw [dset_of_lookup_none l k v h]
  simp only [ddel, List.filter_append]
  rw [show List.filter (fun p => p.1 ≠ k) [(k, v)] = [] by simp]
  rw [List.append_nil]
  exact ddel_of_lookup_none l k h

theorem length_ddel_le (l : List (String × α)) (k : String) :
    (ddel l k).length ≤ l.length :=
  List.length_filter_le _ _

theorem length_dset_le (l : List (String × α)) (k : String) (v : α) :
    (dset l k v).length ≤ l.length + 1 := by
  induction l with
  | nil => simp [dset]
  | cons p t ih =>
    obtain ⟨k1, v1⟩ := p
    by_cases h : k1 = k <;> simp [dset, h] <;> omega

/-- With at most 100 entries after insertion, `_store_idempotency` is a plain
dictionary write. -/
theorem store_idempotency_small (now : Nat) (key : String) (gs : GateState)
    (h : gs.idem.length ≤ 99) :
    store_idempotency now key gs = { gs with idem := dset gs.idem key now } := by
  have hlen : (dset gs.idem key now).length ≤ 100 := by
    have := length_dset_le gs.idem key now
    omega
  simp only [store_idempotency]
  rw [if_neg (by omega)]

theorem release_lead_lock_idem (lead_id : Option Nat) (gs : GateState) :
    (release_lead_lock lead_id gs).idem = gs.idem := rfl

/-- `_store_idempotency` never touches the lock map. -/
theorem store_idempotency_locks (now : Nat) (key : String) (gs : GateState) :
    (store_idempotency now key gs).locks = gs.locks := by
  simp only [store_idempotency]
  split <;> rfl

/-- The resolution layers never touch the lock map. -/
theorem gate_resolution_locks (S : GateSettings) (targets : List (String × TargetConfig))
    (now : Nat) (env : GateEnv) (key msg : String) (pending : List Pending)
    (llm_result : ConfirmationResult) (gs : GateState) :
    (gate_resolution S targets now env key msg pending llm_result gs).2.locks = gs.locks := by
  simp only [gate_resolution, gate_fallback, store_idempotency]
  repeat' (first | rfl | split)

theorem gate_checks_locks (S : GateSettings) (targets : List (String × TargetConfig))
    (now : Nat) (env : GateEnv) (store : Option CtxStore)
    (llm_result : ConfirmationResult) (gs : GateState) :
    (gate_checks S targets now env store llm_result gs).2.locks = gs.locks := by
  simp only [gate_checks]
  repeat' (first | rfl | exact gate_resolution_locks .. | split)

theorem gate_body_locks (S : GateSettings) (targets : List (String × TargetConfig))
    (now : Nat) (env : GateEnv) (store : Option CtxStore)
    (llm_result : ConfirmationResult) (gs : GateState) :
    (gate_body S targets now env store llm_result gs).2.locks = gs.locks := by
  simp only [gate_body]
  repeat' (first | rfl | exact gate_checks_locks .. | split)

theorem store_idempotency_lookup (now : Nat) (key : String) (gs : GateState)
    (h : gs.idem.length ≤ 99) :
    dlookup key (store_idempotency now key gs).idem = some now := by
  rw [store_idempotency_small now key gs h]
  exact dlookup_dset_self ..

/-- Every handled result of the resolution layers stores the idempotency
key. -/
theorem gate_resolution_handled (S : GateSettings) (targets : List (String × TargetConfig))
    (now : Nat) (env : GateEnv) (key msg : String) (pending : List Pending)
    (llm_result : ConfirmationResult) (gs : GateState) :
    (gate_resolution S targets now env key msg pending llm_result gs).1.handled = true →
    (gate_resolution S targets now env key msg pending llm_result gs).2 =
      store_idempotency now key gs := by
  simp only [gate_resolution, gate_fallback]
  repeat' split
  all_goals intro h
  all_goals first
    | rfl
    | (exfalso
       simp at h)

/-- Every handled result of the guarded body stores the idempotency key. -/
theorem gate_checks_handled (S : GateSettings) (targets : List (String × TargetConfig))
    (now : Nat) (env : GateEnv) (store : Option CtxStore)
    (llm_result : ConfirmationResult) (gs : GateState) :
    (gate_checks S targets now env store llm_result gs).1.handled = true →
    (gate_checks S targets now env store llm_result gs).2 =
      store_idempotency now
        (build_idempotency_key env.lead_id ((env.messages.getLast?).getD "")) gs := by
  simp only [gate_checks]
  repeat' split
  all_goals intro h
  all_goals first
    | exact gate_resolution_handled S targets now env _ _ _ llm_result gs h
    | (exfalso
       simp at h)

/-- A handled gate body leaves the idempotency key recorded at the current
time (as long as the cache is below its retention cap). -/
theorem gate_body_handled (S : GateSettings) (targets : List (String × TargetConfig))
    (now : Nat) (env : GateEnv) (store : Option CtxStore)
    (llm_result : ConfirmationResult) (gs : GateState)
    (h99 : gs.idem.length ≤ 99) :
    (gate_body S targets now env store llm_result gs).1.handled = true →
    dlookup (build_idempotency_key env.lead_id ((env.messages.getLast?).getD ""))
      (gate_body S targets now env store llm_result gs).2.idem = some now := by
  simp only [gate_body]
  split
  · split
    · intro h
      exfalso
      simp at h
    · intro h
      rw [gate_checks_handled S targets now env store llm_result _ h]
      exact store_idempotency_lookup now _ _
        (le_trans (length_ddel_le gs.idem _) h99)
  · intro h
    rw [gate_checks_handled S targets now env store llm_result gs h]
    exact store_idempotency_lookup now _ gs h99

/-- `process_message` when the per-lead lock is busy. -/
theorem process_message_locked (S : GateSettings) (targets : List (String × TargetConfig))
    (now : Nat) (env : GateEnv) (store : Option CtxStore)
    (llm_result : ConfirmationResult) (gs : GateState)
    (h : now - dget gs.locks (lock_key env.lead_id) 0 < 30) :
    process_message S targets now env store llm_result gs =
      ({ reason := "lead_locked" }, gs) := by
  simp only [process_message, acquire_lead_lock]
  rw [if_pos h]

/-- `process_message` when the per-lead lock is acquired: run the body on
the locked state and release in the guaranteed-release path. -/
theorem process_message_acquired (S : GateSettings) (targets : List (String × TargetConfig))
    (now : Nat) (env : GateEnv) (store : Option CtxStore)
    (llm_result : ConfirmationResult) (gs : GateState)
    (h : ¬ now - dget gs.locks (lock_key env.lead_id) 0 < 30) :
    process_message S targets now env store llm_result gs =
      ((gate_body S targets now env store llm_result
          { gs with locks := dset gs.locks (lock_key env.lead_id) now }).1,
        release_lead_lock env.lead_id
          (gate_body S targets now env store llm_result
            { gs with locks := dset gs.locks (lock_key env.lead_id) now }).2) := by
  simp only [process_message, acquire_lead_lock]
  rw [if_neg h]

/-- C3 (amended): the Gate is idempotency-suppressing, not
result-reproducing.  If a call at time `t` resolved a confirmation
(`handled = true`) for a (lead, normalized message) pair, then a second
call within the 10-minute window whose environment carries the same lead id
and any message that normalizes (`lower().strip()`) to the same text — with
any persisted context and LLM outcome — returns the fresh no-op
`{handled := false, reason := "idempotent_skip"}` — not a result identical
to the first — and performs zero additional side effects: the gate state
after the second call equals the state after the first (provided the
idempotency cache is below its ~100-entry retention cap and the clock is
past the first 30 seconds of the epoch). -/
theorem gate_idempotent_second_call (S : GateSettings)
    (targets : List (String × TargetConfig)) (t tp : Nat) (env env2 : GateEnv)
    (store store2 : Option CtxStore) (llm1 llm2 : ConfirmationResult)
    (gs0 : GateState)
    (h99 : gs0.idem.length ≤ 99) (h30 : 30 ≤ tp) (hts : t ≤ tp)
    (hwin : tp - t < 600)
    (hlead : env2.lead_id = env.lead_id)
    (hnorm : normShort ((env2.messages.getLast?).getD "") =
      normShort ((env.messages.getLast?).getD ""))
    (hh : (process_message S targets t env store llm1 gs0).1.handled = true) :
    (process_message S targets tp env2 store2 llm2
        (process_message S targets t env store llm1 gs0).2).1 =
      { reason := "idempotent_skip" } ∧
    (process_message S targets tp env2 store2 llm2
        (process_message S targets t env store llm1 gs0).2).2 =
      (process_message S targets t env store llm1 gs0).2 := by
  by_cases hacq : t - dget gs0.locks (lock_key env.lead_id) 0 < 30
  · rw [process_message_locked S targets t env store llm1 gs0 hacq] at hh
    simp at hh
  · rw [process_message_acquired S targets t env store llm1 gs0 hacq] at hh ⊢
    have hbody :
        (gate_body S targets t env store llm1
          { gs0 with locks := dset gs0.locks (lock_key env.lead_id) t }).1.handled = true := hh
    have hidem1 :=
      gate_body_handled S targets t env store llm1
        { gs0 with locks := dset gs0.locks (lock_key env.lead_id) t } h99 hbody
    have hlocks1 := gate_body_locks S targets t env store llm1
      { gs0 with locks := dset gs0.locks (lock_key env.lead_id) t }
    set gb := gate_body S targets t env store llm1
      { gs0 with locks := dset gs0.locks (lock_key env.lead_id) t } with hgb
    have hL2 : lock_key env2.lead_id = lock_key env.lead_id := by rw [hlead]
    have hK2 : build_idempotency_key env2.lead_id ((env2.messages.getLast?).getD "") =
        build_idempotency_key env.lead_id ((env.messages.getLast?).getD "") := by
      rw [build_idempotency_key, build_idempotency_key, hlead, hnorm]
    have hs1locknone :
        dlookup (lock_key env2.lead_id) (release_lead_lock env.lead_id gb.2).locks = none := by
      rw [hL2]
      simp only [release_lead_lock]
      exact dlookup_ddel_self ..
    have hacq2 : ¬ tp - dget (release_lead_lock env.lead_id gb.2).locks
        (lock_key env2.lead_id) 0 < 30 := by
      rw [dget, hs1locknone]
      simp only [Option.getD_none]
      omega
    rw [process_message_acquired S targets tp env2 store2 llm2
      (release_lead_lock env.lead_id gb.2) hacq2]
    set gsL2 : GateState := { release_lead_lock env.lead_id gb.2 with
      locks := dset (release_lead_lock env.lead_id gb.2).locks (lock_key env2.lead_id) tp }
      with hgsl2
    have hidem2 :
        dlookup (build_idempotency_key env2.lead_id ((env2.messages.getLast?).getD ""))
          gsL2.idem = some t := by
      rw [hK2, hgsl2]
      simpa [release_lead_lock] using hidem1
    have hgb2 : gate_body S targets tp env2 store2 llm2 gsL2 =
        ({ reason := "idempotent_skip" }, gsL2) := by
      simp only [gate_body, hidem2]
      rw [if_pos hwin]
    rw [hgb2]
    refine ⟨rfl, ?_⟩
    show release_lead_lock env2.lead_id gsL2 = release_lead_lock env.lead_id gb.2
    rw [hgsl2, hL2]
    simp only [release_lead_lock]
    rw [hL2]
    rw [ddel_dset_cancel (ddel gb.2.locks (lock_key env.lead_id))
      (lock_key env.lead_id) tp (dlookup_ddel_self ..)]

/-- Witness for C3 at a concrete scenario: the first call resolves "sim"
deterministically; the second call carries the distinct message "SIM "
that merely normalizes to the same text, and returns the no-op. -/
theorem gate_idempotent_second_call_witness :
    (process_message settingsDetEx targetsEx 1000 (gateEnvEx 7 "sim")
        (gateStoreEx 2000 []) {} {}).1.handled = true ∧
    (process_message settingsDetEx targetsEx 1100 (gateEnvEx 7 "SIM ")
        (gateStoreEx 2000 []) {}
        (process_message settingsDetEx targetsEx 1000 (gateEnvEx 7 "sim")
          (gateStoreEx 2000 []) {} {}).2).1 =
      { reason := "idempotent_skip" } :=
  ⟨by decide,
    (gate_idempotent_second_call settingsDetEx targetsEx 1000 1100
      (gateEnvEx 7 "sim") (gateEnvEx 7 "SIM ") (gateStoreEx 2000 [])
      (gateStoreEx 2000 []) {} {} {}
      (by decide) (by decide) (by decide) (by decide) (by decide) (by decide)
      (by decide)).1⟩

/-- C3 counterexample: the second call's result is not identical to the
first call's result — the first is handled with synthesized actions, the
second is the fresh idempotent no-op. -/
theorem gate_idempotent_not_identical :
    (process_message settingsDetEx targetsEx 5000 (gateEnvEx 9 "ok")
        (gateStoreEx 9000 []) {} {}).1.handled = true ∧
    (process_message settingsDetEx targetsEx 5100 (gateEnvEx 9 "ok")
        (gateStoreEx 9000 []) {}
        (process_message settingsDetEx targetsEx 5000 (gateEnvEx 9 "ok")
          (gateStoreEx 9000 []) {} {}).2).1 ≠
      (process_message settingsDetEx targetsEx 5000 (gateEnvEx 9 "ok")
        (gateStoreEx 9000 []) {} {}).1 := by
  decide

/-- C5 (amended): with the deterministic short-circuit enabled, an inbound
"sim" against an unexpired `waiting` confirmation for `confirm_can_deposit`
whose configuration's `on_yes` facts are `{can_deposit: true}` yields
`{handled := true, polarity := yes, source := "deterministic_short"}` — and
the action list is `[set_facts{can_deposit: true}, send_message(confirmation
text), clear_waiting]`, with the extra `send_message` the code always emits
on the yes path. -/
theorem gate_deterministic_short_sim (S : GateSettings)
    (targets : List (String × TargetConfig)) (now ttlv n : Nat)
    (tl : List TimelineEntry) (cfg : TargetConfig) (oc : Outcome)
    (llm : ConfirmationResult)
    (hdet : S.gate_yesno_deterministico = true)
    (hn : n ≠ 0) (h30 : 30 ≤ now) (httl : now ≤ ttlv)
    (htv : is_target_valid targets "confirm_can_deposit" = true)
    (hcfg : dlookup "confirm_can_deposit" targets = some cfg)
    (hyes : cfg.on_yes = some oc)
    (hfacts : oc.facts = [("can_deposit", Val.b true)]) :
    (process_message S targets now { lead_id := some n, messages := ["sim"] }
        (some { aguardando := some { tipo := "confirmacao",
                                     targetv := some "confirm_can_deposit",
                                     ttl := ttlv },
                timeline := tl })
        llm {}).1 =
      { handled := true,
        actions :=
          [{ type := "set_facts", set_facts := some [("can_deposit", Val.b true)] },
           { type := "send_message",
             text := some "✅ Perfeito! Entendi que você consegue fazer o depósito. Vou liberar seu acesso ao teste!" },
           { type := "clear_waiting", text := some "Estado de aguardando limpo" }],
        target := some "confirm_can_deposit",
        polarity := some "yes",
        confidence := 95,
        source := "deterministic_short",
        reason := "short_yes_response" } := by
  have hnt : natTruthy (some n) = true := by simp [natTruthy, hn]
  have hacq : ¬ now - dget ({} : GateState).locks (lock_key (some n)) 0 < 30 := by
    simp only [dget, dlookup, Option.getD_none]
    omega
  rw [process_message_acquired S targets now
    { lead_id := some n, messages := ["sim"] }
    (some { aguardando := some { tipo := "confirmacao",
                                 targetv := some "confirm_can_deposit",
                                 ttl := ttlv },
            timeline := tl })
    llm {} hacq]
  have hexp : aguardando_expirou now
      { tipo := "confirmacao", targetv := some "confirm_can_deposit", ttl := ttlv } =
      false := by
    simp only [aguardando_expirou, decide_eq_false_iff_not]
    omega
  have hpend : get_pending_confirmations targets now S.gate_retroactive_window_min
      (obter_contexto now
        (some { aguardando := some { tipo := "confirmacao",
                                     targetv := some "confirm_can_deposit",
                                     ttl := ttlv },
                timeline := tl }))
      tl =
      [{ target := "confirm_can_deposit", source := "context" }] := by
    simp [get_pending_confirmations, obter_contexto, hexp, htv, httl]
  have hshort : deterministic_short_response "sim"
      [{ target := "confirm_can_deposit", source := "context" }] =
      some { handled := true, target := some "confirm_can_deposit",
             polarity := some "yes", confidence := 95,
             source := "deterministic_short", reason := "short_yes_response" } := by
    decide
  have hcact : create_confirmation_actions targets
      { handled := true, target := some "confirm_can_deposit",
        polarity := some "yes", confidence := 95,
        source := "deterministic_short", reason := "short_yes_response" }
      (some n) =
      [{ type := "set_facts", set_facts := some [("can_deposit", Val.b true)] },
       { type := "send_message",
         text := some "✅ Perfeito! Entendi que você consegue fazer o depósito. Vou liberar seu acesso ao teste!" },
       { type := "clear_waiting", text := some "Estado de aguardando limpo" }] := by
    rw [create_confirmation_actions]
    rw [if_neg (by simp [strTruthy, natTruthy, hn])]
    simp [hcfg, hyes, hfacts]
  simp [gate_body, gate_checks, gate_resolution, dlookup, hnt, hpend, hshort,
    hcact, hdet]
  rw [if_pos (by decide : is_short_response "sim" = true)]
  simp [hcact]

/-- Witness for C5: a concrete instance of the deterministic short-circuit
scenario, via the theorem. -/
theorem gate_deterministic_short_sim_witness :
    (process_message settingsDetEx
        [("confirm_can_deposit", { on_yes := some { facts := [("can_deposit", Val.b true)] } })]
        3000
        { lead_id := some 5, messages := ["sim"] }
        (some { aguardando := some { tipo := "confirmacao",
                                     targetv := some "confirm_can_deposit",
                                     ttl := 4000 },
                timeline := [] })
        {} {}).1 =
      { handled := true,
        actions :=
          [{ type := "set_facts", set_facts := some [("can_deposit", Val.b true)] },
           { type := "send_message",
             text := some "✅ Perfeito! Entendi que você consegue fazer o depósito. Vou liberar seu acesso ao teste!" },
           { type := "clear_waiting", text := some "Estado de aguardando limpo" }],
        target := some "confirm_can_deposit",
        polarity := some "yes",
        confidence := 95,
        source := "deterministic_short",
        reason := "short_yes_response" } :=
  gate_deterministic_short_sim settingsDetEx
    [("confirm_can_deposit", { on_yes := some { facts := [("can_deposit", Val.b true)] } })]
    3000 4000 5 []
    { on_yes := some { facts := [("can_deposit", Val.b true)] } }
    { facts := [("can_deposit", Val.b true)] }
    {}
    (by decide) (by decide) (by decide) (by decide) (by decide) (by decide)
    (by decide) (by decide)

/-- C5 counterexample: in the claim's scenario the action list is the
three-element `[set_facts, send_message, clear_waiting]`, not exactly
`[set_facts, clear_waiting]`. -/
theorem gate_deterministic_short_sim_extra_message :
    (process_message settingsDetEx
        [("confirm_can_deposit", { on_yes := some { facts := [("can_deposit", Val.b true)] } })]
        7000
        { lead_id := some 3, messages := ["sim"] }
        (some { aguardando := some { tipo := "confirmacao",
                                     targetv := some "confirm_can_deposit",
                                     ttl := 8000 },
                timeline := [] })
        {} {}).1.actions =
      [{ type := "set_facts", set_facts := some [("can_deposit", Val.b true)] },
       { type := "send_message",
         text := some "✅ Perfeito! Entendi que você consegue fazer o depósito. Vou liberar seu acesso ao teste!" },
       { type := "clear_waiting", text := some "Estado de aguardando limpo" }] := by
  decide

/-- C4: a "não" arriving 40 minutes after a `waiting` entry with a 30-minute
TTL was armed (so the entry is expired and cleared on read), with a matching
timeline entry 8 minutes old whose target is still valid and a 10-minute
retroactive window, is resolved via the retroactive timeline lookup with
polarity `no`, and no fact is set to `true` by the resulting actions.
(`get_retroactive_expects_reply` is spec-modelled; see its definition.) -/
theorem gate_retroactive_nao (S : GateSettings)
    (targets : List (String × TargetConfig)) (T0 n : Nat)
    (e : TimelineEntry) (cfg : TargetConfig) (oc : Outcome)
    (llm : ConfirmationResult)
    (hdet : S.gate_yesno_deterministico = true)
    (hwin : S.gate_retroactive_window_min = 10)
    (hn : n ≠ 0)
    (het : e.target = "confirm_can_deposit")
    (hec : e.created_at = T0 + 1920)
    (htv : is_target_valid targets "confirm_can_deposit" = true)
    (hcfg : dlookup "confirm_can_deposit" targets = some cfg)
    (hno : cfg.on_no = some oc)
    (hfacts : ∀ kv ∈ oc.facts, kv.2 ≠ Val.b true) :
    get_pending_confirmations targets (T0 + 2400) S.gate_retroactive_window_min
        (obter_contexto (T0 + 2400)
          (some { aguardando := some { tipo := "confirmacao",
                                       targetv := some "confirm_can_deposit",
                                       ttl := T0 + 1800, created_at := T0 },
                  timeline := [e] }))
        [e] =
      [{ target := "confirm_can_deposit", source := "retroactive",
         timestampv := T0 + 1920, automation_id := e.automation_id,
         prompt_text := e.prompt_text,
         provider_message_id := e.provider_message_id }] ∧
    (process_message S targets (T0 + 2400)
        { lead_id := some n, messages := ["não"] }
        (some { aguardando := some { tipo := "confirmacao",
                                     targetv := some "confirm_can_deposit",
                                     ttl := T0 + 1800, created_at := T0 },
                timeline := [e] })
        llm {}).1.handled = true ∧
    (process_message S targets (T0 + 2400)
        { lead_id := some n, messages := ["não"] }
        (some { aguardando := some { tipo := "confirmacao",
                                     targetv := some "confirm_can_deposit",
                                     ttl := T0 + 1800, created_at := T0 },
                timeline := [e] })
        llm {}).1.polarity = some "no" ∧
    (process_message S targets (T0 + 2400)
        { lead_id := some n, messages := ["não"] }
        (some { aguardando := some { tipo := "confirmacao",
                                     targetv := some "confirm_can_deposit",
                                     ttl := T0 + 1800, created_at := T0 },
                timeline := [e] })
        llm {}).1.source = "deterministic_short" ∧
    ∀ a ∈ (process_message S targets (T0 + 2400)
        { lead_id := some n, messages := ["não"] }
        (some { aguardando := some { tipo := "confirmacao",
                                     targetv := some "confirm_can_deposit",
                                     ttl := T0 + 1800, created_at := T0 },
                timeline := [e] })
        llm {}).1.actions,
      ∀ kv ∈ (a.set_facts.getD []), kv.2 ≠ Val.b true := by
  have hnt : natTruthy (some n) = true := by simp [natTruthy, hn]
  have hexp : aguardando_expirou (T0 + 2400)
      { tipo := "confirmacao", targetv := some "confirm_can_deposit",
        ttl := T0 + 1800, created_at := T0 } = true := by
    simp only [aguardando_expirou, decide_eq_true_eq]
    omega
  have hpend : get_pending_confirmations targets (T0 + 2400)
      S.gate_retroactive_window_min
      (obter_contexto (T0 + 2400)
        (some { aguardando := some { tipo := "confirmacao",
                                     targetv := some "confirm_can_deposit",
                                     ttl := T0 + 1800, created_at := T0 },
                timeline := [e] }))
      [e] =
      [{ target := "confirm_can_deposit", source := "retroactive",
         timestampv := T0 + 1920, automation_id := e.automation_id,
         prompt_text := e.prompt_text,
         provider_message_id := e.provider_message_id }] := by
    rw [hwin]
    simp only [obter_contexto, hexp, if_pos trivial]
    simp [get_pending_confirmations, get_retroactive_expects_reply, het, hec, htv]
  have hshort : deterministic_short_response "não"
      [{ target := "confirm_can_deposit", source := "retroactive",
         timestampv := T0 + 1920, automation_id := e.automation_id,
         prompt_text := e.prompt_text,
         provider_message_id := e.provider_message_id }] =
      some { handled := true, target := some "confirm_can_deposit",
             polarity := some "no", confidence := 95,
             source := "deterministic_short", reason := "short_no_response" } := rfl
  have hacq : ¬ (T0 + 2400) - dget ({} : GateState).locks (lock_key (some n)) 0 < 30 := by
    simp only [dget, dlookup, Option.getD_none]
    omega
  have hcactp : ∀ a ∈ create_confirmation_actions targets
      { handled := true, target := some "confirm_can_deposit",
        polarity := some "no", confidence := 95,
        source := "deterministic_short", reason := "short_no_response" }
      (some n),
      ∀ kv ∈ (a.set_facts.getD []), kv.2 ≠ Val.b true := by
    intro a ha kv hkv
    rw [create_confirmation_actions] at ha
    rw [if_neg (by simp [strTruthy, natTruthy, hn])] at ha
    simp only [hcfg, hno] at ha
    rw [if_neg (by decide : ¬ ((some "no" : Option String) = some "yes"))] at ha
    rw [if_pos trivial] at ha
    by_cases hf : oc.facts = []
    · rw [if_neg (by simp [hf])] at ha
      cases hoa : oc.automation with
      | some auto =>
        rw [hoa] at ha
        simp only [List.nil_append, List.mem_append, List.mem_singleton,
          List.mem_cons, List.not_mem_nil, or_false] at ha
        rcases ha with ha | ha <;>
          · rw [ha] at hkv
            simp at hkv
      | none =>
        rw [hoa] at ha
        simp only [List.nil_append, List.mem_append, List.mem_singleton,
          List.mem_cons, List.not_mem_nil, or_false] at ha
        rcases ha with ha | ha <;>
          · rw [ha] at hkv
            simp at hkv
    · rw [if_pos (by simp [hf])] at ha
      cases hoa : oc.automation with
      | some auto =>
        rw [hoa] at ha
        simp only [List.cons_append, List.nil_append, List.mem_cons,
          List.not_mem_nil, or_false] at ha
        rcases ha with ha | ha | ha
        · rw [ha] at hkv
          simp only [Option.getD_some] at hkv
          exact hfacts kv hkv
        · rw [ha] at hkv
          simp at hkv
        · rw [ha] at hkv
          simp at hkv
      | none =>
        rw [hoa] at ha
        simp only [List.cons_append, List.nil_append, List.mem_cons,
          List.not_mem_nil, or_false] at ha
        rcases ha with ha | ha | ha
        · rw [ha] at hkv
          simp only [Option.getD_some] at hkv
          exact hfacts kv hkv
        · rw [ha] at hkv
          simp at hkv
        · rw [ha] at hkv
          simp at hkv
  refine ⟨hpend, ?_⟩
  rw [process_message_acquired S targets (T0 + 2400)
    { lead_id := some n, messages := ["não"] }
    (some { aguardando := some { tipo := "confirmacao",
                                 targetv := some "confirm_can_deposit",
                                 ttl := T0 + 1800, created_at := T0 },
            timeline := [e] })
    llm {} hacq]
  simp [gate_body, gate_checks, gate_resolution, dlookup, hnt, hpend, hshort, hdet]
  rw [if_pos (by decide : is_short_response "não" = true)]
  dsimp only
  refine ⟨rfl, rfl, rfl, ?_⟩
  intro a ha k v hkv
  exact hcactp a ha (k, v) hkv

/-- Witness for C4: the concrete 40-minute/8-minute scenario from the spec,
via the theorem. -/
theorem gate_retroactive_nao_witness :
    get_pending_confirmations targetsEx 2400
        settingsDetEx.gate_retroactive_window_min
        (obter_contexto 2400
          (some { aguardando := some { tipo := "confirmacao",
                                       targetv := some "confirm_can_deposit",
                                       ttl := 1800, created_at := 0 },
                  timeline := [{ target := "confirm_can_deposit", created_at := 1920 }] }))
        [{ target := "confirm_can_deposit", created_at := 1920 }] =
      [{ target := "confirm_can_deposit", source := "retroactive",
         timestampv := 1920 }] ∧
    (process_message settingsDetEx targetsEx 2400
        { lead_id := some 4, messages := ["não"] }
        (some { aguardando := some { tipo := "confirmacao",
                                     targetv := some "confirm_can_deposit",
                                     ttl := 1800, created_at := 0 },
                timeline := [{ target := "confirm_can_deposit", created_at := 1920 }] })
        {} {}).1.handled = true ∧
    (process_message settingsDetEx targetsEx 2400
        { lead_id := some 4, messages := ["não"] }
        (some { aguardando := some { tipo := "confirmacao",
                                     targetv := some "confirm_can_deposit",
                                     ttl := 1800, created_at := 0 },
                timeline := [{ target := "confirm_can_deposit", created_at := 1920 }] })
        {} {}).1.polarity = some "no" ∧
    (process_message settingsDetEx targetsEx 2400
        { lead_id := some 4, messages := ["não"] }
        (some { aguardando := some { tipo := "confirmacao",
                                     targetv := some "confirm_can_deposit",
                                     ttl := 1800, created_at := 0 },
                timeline := [{ target := "confirm_can_deposit", created_at := 1920 }] })
        {} {}).1.source = "deterministic_short" ∧
    ∀ a ∈ (process_message settingsDetEx targetsEx 2400
        { lead_id := some 4, messages := ["não"] }
        (some { aguardando := some { tipo := "confirmacao",
                                     targetv := some "confirm_can_deposit",
                                     ttl := 1800, created_at := 0 },
                timeline := [{ target := "confirm_can_deposit", created_at := 1920 }] })
        {} {}).1.actions,
      ∀ kv ∈ (a.set_facts.getD []), kv.2 ≠ Val.b true :=
  gate_retroactive_nao settingsDetEx targetsEx 0 4
    { target := "confirm_can_deposit", created_at := 1920 }
    { on_yes := some { facts := [("can_deposit", Val.b true)] },
      on_no := some { facts := [("can_deposit", Val.b false)] } }
    { facts := [("can_deposit", Val.b false)] }
    {}
    (by decide) (by decide) (by decide) (by decide) (by decide) (by decide)
    (by decide) (by decide) (by decide)

/-- C1 counterexample: with an empty parsed target store the default
whitelist still validates `confirm_can_deposit`, so the gate resolves the
confirmation (`handled = true`), yet `_create_confirmation_actions` finds no
configuration for the target and returns no actions at all — in particular
no `clear_waiting`. -/
theorem resolved_without_clear_waiting :
    (process_message settingsDetEx [] 1000 (gateEnvEx 2 "sim")
        (gateStoreEx 2000 []) {} {}).1.handled = true ∧
    (process_message settingsDetEx [] 1000 (gateEnvEx 2 "sim")
        (gateStoreEx 2000 []) {} {}).1.actions = [] := by
  decide

/-- C1 (amended): whenever the resolved result is handled, its target is a
non-empty string, the lead id is truthy, and the target's configuration is
present in the parsed store, the synthesized action list contains exactly
one `clear_waiting` action and it is the final element — for every
polarity.  When the configuration is missing the list is empty instead. -/
theorem create_actions_exactly_one_clear
    (targets : List (String × TargetConfig)) (result : ConfirmationResult)
    (lead_id : Option Nat) (tgt : String) (cfg : TargetConfig)
    (hh : result.handled = true)
    (htgt : result.target = some tgt)
    (ht : strTruthy result.target = true)
    (hl : natTruthy lead_id = true)
    (hfound : dlookup tgt targets = some cfg) :
    ((create_confirmation_actions targets result lead_id).filter
        (fun a => a.type == "clear_waiting")).length = 1 ∧
    (create_confirmation_actions targets result lead_id).getLast? =
      some { type := "clear_waiting", text := some "Estado de aguardando limpo" } := by
  have hguard : ¬ (¬ result.handled ∨ ¬ strTruthy result.target ∨
      ¬ natTruthy lead_id) := by
    simp [hh, ht, hl]
  rw [create_confirmation_actions, if_neg hguard, htgt]
  dsimp only
  rw [hfound]
  dsimp only
  constructor
  · repeat' split
    all_goals simp [List.filter]
  · repeat' split
    all_goals simp

/-- Witness for C1 (amended): the yes polarity against the sample target
store, via the theorem. -/
theorem create_actions_exactly_one_clear_witness :
    ((create_confirmation_actions targetsEx
        { handled := true, target := some "confirm_can_deposit",
          polarity := some "yes", confidence := 95,
          source := "deterministic_short", reason := "short_yes_response" }
        (some 6)).filter (fun a => a.type == "clear_waiting")).length = 1 ∧
    (create_confirmation_actions targetsEx
        { handled := true, target := some "confirm_can_deposit",
          polarity := some "yes", confidence := 95,
          source := "deterministic_short", reason := "short_yes_response" }
        (some 6)).getLast? =
      some { type := "clear_waiting", text := some "Estado de aguardando limpo" } :=
  create_actions_exactly_one_clear targetsEx
    { handled := true, target := some "confirm_can_deposit",
      polarity := some "yes", confidence := 95,
      source := "deterministic_short", reason := "short_yes_response" }
    (some 6) "confirm_can_deposit"
    { on_yes := some { facts := [("can_deposit", Val.b true)] },
      on_no := some { facts := [("can_deposit", Val.b false)] } }
    (by decide) (by decide) (by decide) (by decide) (by decide)

/-- C6 counterexample: a successful send of an automation whose catalog
entry declares `expects_reply.target` arms the waiting state and updates
`ultima_automacao_enviada`, but appends nothing to the expects-reply
timeline — the hook never writes the timeline. -/
theorem on_automation_sent_no_timeline_append :
    (on_automation_sent catalogEx targetsEx 500 "ask_deposit_for_test" (some 3)
        true (some "m1") (some "Pode depositar?") {}).aguardando.isSome = true ∧
    (on_automation_sent catalogEx targetsEx 500 "ask_deposit_for_test" (some 3)
        true (some "m1") (some "Pode depositar?") {}).ultima_automacao_enviada =
      some "ask_deposit_for_test" ∧
    (on_automation_sent catalogEx targetsEx 500 "ask_deposit_for_test" (some 3)
        true (some "m1") (some "Pode depositar?") {}).timeline = [] := by
  decide

/-- C6 (amended): the hook is a no-op on the persistent context when the
send failed or the lead id is missing; when the automation's catalog entry
declares a non-empty `expects_reply.target` it writes the `waiting` entry
with TTL `now + max_age_minutes * 60` (default 30 minutes) and full
provenance and updates `ultima_automacao_enviada` — but it leaves the
expects-reply timeline untouched.  The separate timeline writer caps the
timeline at the 10 most recent entries. -/
theorem on_automation_sent_spec (catalog : List Automation)
    (targets : List (String × TargetConfig)) (now : Nat)
    (aid : String) (n : Nat) (lid : Option Nat) (pmid pm : Option String)
    (ptx : Option String) (pt : String) (ctx : CtxStore) (cfg : Automation)
    (er : ExpectsReply) (target : String) (entry : TimelineEntry)
    (hn : n ≠ 0) (haid : aid ≠ "")
    (hcfg : dlookup aid (catalogById catalog) = some cfg)
    (her : cfg.expects_reply = some er)
    (ht : er.target = some target) (htne : target ≠ "")
    (hpt : pt ≠ "") :
    on_automation_sent catalog targets now aid lid false pm ptx ctx = ctx ∧
    on_automation_sent catalog targets now aid none true pm ptx ctx = ctx ∧
    on_automation_sent catalog targets now aid (some n) true pmid (some pt) ctx =
      { ctx with
        aguardando := some { tipo := "confirmacao",
                             targetv := some target,
                             automation_id := some aid,
                             lead_idv := some n,
                             provider_message_id := pmid,
                             prompt_text := pt,
                             ttl := now + get_target_ttl targets target * 60,
                             created_at := now },
        ultima_automacao_enviada := some aid } ∧
    (on_automation_sent catalog targets now aid (some n) true pmid
        (some pt) ctx).timeline = ctx.timeline ∧
    (adicionar_timeline_expects_reply ctx entry).timeline.length =
      min (ctx.timeline.length + 1) 10 := by
  have hact : on_automation_sent catalog targets now aid (some n) true pmid
      (some pt) ctx =
      { ctx with
        aguardando := some { tipo := "confirmacao",
                             targetv := some target,
                             automation_id := some aid,
                             lead_idv := some n,
                             provider_message_id := pmid,
                             prompt_text := pt,
                             ttl := now + get_target_ttl targets target * 60,
                             created_at := now },
        ultima_automacao_enviada := some aid } := by
    rw [on_automation_sent,
      if_neg (by simp [natTruthy, hn, haid]), hcfg]
    dsimp only
    rw [her]
    dsimp only
    rw [ht]
    dsimp only
    rw [if_neg htne]
    simp [hpt]
  refine ⟨by simp [on_automation_sent], by simp [on_automation_sent, natTruthy],
    hact, by rw [hact], ?_⟩
  rw [adicionar_timeline_expects_reply]
  dsimp only
  by_cases hlen : (ctx.timeline ++ [entry]).length > 10
  · rw [if_pos hlen]
    simp only [List.length_drop, List.length_append, List.length_singleton] at *
    omega
  · rw [if_neg hlen]
    simp only [List.length_append, List.length_singleton] at *
    omega

/-- Witness for C6 (amended): the sample catalog entry against the sample
target store, via the theorem. -/
theorem on_automation_sent_spec_witness :
    on_automation_sent catalogEx targetsEx 500 "ask_deposit_for_test"
        (some 8) false none none {} = {} ∧
    on_automation_sent catalogEx targetsEx 500 "ask_deposit_for_test"
        none true none none {} = {} ∧
    on_automation_sent catalogEx targetsEx 500 "ask_deposit_for_test"
        (some 3) true (some "m1") (some "Pode depositar?") {} =
      { aguardando := some { tipo := "confirmacao",
                              targetv := some "confirm_can_deposit",
                              automation_id := some "ask_deposit_for_test",
                              lead_idv := some 3,
                              provider_message_id := some "m1",
                              prompt_text := "Pode depositar?",
                              ttl := 500 + get_target_ttl targetsEx "confirm_can_deposit" * 60,
                              created_at := 500 },
        ultima_automacao_enviada := some "ask_deposit_for_test" } ∧
    (on_automation_sent catalogEx targetsEx 500 "ask_deposit_for_test"
        (some 3) true (some "m1") (some "Pode depositar?")
        ({} : CtxStore)).timeline = ({} : CtxStore).timeline ∧
    (adicionar_timeline_expects_reply {} { target := "confirm_can_deposit" }).timeline.length =
      min (({} : CtxStore).timeline.length + 1) 10 :=
  on_automation_sent_spec catalogEx targetsEx 500 "ask_deposit_for_test"
    3 (some 8) (some "m1") none none "Pode depositar?" {}
    { id := some "ask_deposit_for_test",
      output := { text := some "Você consegue fazer um depósito?" },
      expects_reply := some { target := some "confirm_can_deposit" } }
    { target := some "confirm_can_deposit" } "confirm_can_deposit"
    { target := "confirm_can_deposit" }
    (by decide) (by decide) (by decide) (by decide) (by decide) (by decide)
    (by decide)

/-- C7 counterexample: an exception raised by the context lookup — which
runs before the `try` block — propagates to the caller instead of degrading
to the generic apologetic action. -/
theorem decide_and_plan_propagates_context_error :
    decide_and_plan { obterContexto := .error "db down" }
        { lead_id := some 1, messages := ["oi"] } "dec_1" =
      .error "db down" := rfl

/-- C7 (amended): exceptions raised inside the three flow handlers — the
extent of the `try` block — degrade to a plan whose action list is exactly
the single generic apologetic `send_message`; exceptions raised before the
`try` (context lookup, the short-response path's `limpar_aguardando`)
propagate to the caller. -/
theorem decide_and_plan_flow_errors_degrade (deps : OrchDeps) (env : OrchEnv)
    (decision_id : String) (ctxv : Option CtxStore) (e1 e2 e3 : String)
    (hctx : deps.obterContexto = .ok ctxv)
    (hshort : deps.interpretarResposta = none)
    (hproc : deps.procedureFlow = .error e1)
    (hdoubt : deps.doubtFlow = .error e2)
    (hfall : deps.fallbackFlow = .error e3) :
    decide_and_plan deps env decision_id =
      .ok { decision_id := decision_id, actions := [create_error_action] } := by
  rw [decide_and_plan]
  have hok : (if natTruthy env.lead_id then deps.obterContexto else .ok none) =
      .ok (if natTruthy env.lead_id then ctxv else none) := by
    cases natTruthy env.lead_id <;> simp [hctx]
  rw [hok]
  dsimp only
  rw [hshort]
  dsimp only
  by_cases h1 : classify_interaction env = "PROCEDIMENTO"
  · rw [if_pos h1, hproc]
  · rw [if_neg h1]
    by_cases h2 : classify_interaction env = "DÚVIDA"
    · rw [if_pos h2, hdoubt]
    · rw [if_neg h2, hfall]

/-- Witness for C7 (amended): all three flows raising against a doubt-style
message, via the theorem. -/
theorem decide_and_plan_flow_errors_degrade_witness :
    decide_and_plan { interpretarResposta := none,
                      procedureFlow := .error "boom1",
                      doubtFlow := .error "boom2",
                      fallbackFlow := .error "boom3" }
        { lead_id := some 1, messages := ["como funciona?"] } "dec_2" =
      .ok { decision_id := "dec_2", actions := [create_error_action] } :=
  decide_and_plan_flow_errors_degrade
    { interpretarResposta := none,
      procedureFlow := .error "boom1",
      doubtFlow := .error "boom2",
      fallbackFlow := .error "boom3" }
    { lead_id := some 1, messages := ["como funciona?"] } "dec_2"
    none "boom1" "boom2" "boom3" rfl rfl rfl rfl rfl

end MB
